import Mathlib

/-! # VRTemplate2.0: a shallow embedding of the gameplay logic

The engine objects (components, PhysX joints, player controllers) are modelled
as plain records.  Pointers are `Option`s, a dereference of a null pointer is
the fault `Fault.nullDeref`, and C++ `float`s are modelled by rationals: every
function below only stores, compares, clamps, adds or divides them.

Engine services whose result the repository code merely consumes (component
transforms, traces, navigation queries) are inputs of the embedded functions.
-/

namespace VRProject

/-! ## Common vocabulary -/

/-- Faults a C++ call can run into. -/
inductive Fault where
  | nullDeref
  deriving DecidableEq, Repr

/-- Engine object pointers are identified by a number. -/
abbrev ObjId := Nat

/-- The engine name type `FName`. -/
abbrev FName := String

/-- The engine vector `FVector` / PhysX `PxVec3`. -/
structure FVector where
  X : ℚ
  Y : ℚ
  Z : ℚ
  deriving DecidableEq

/-- The engine quaternion `FQuat` / PhysX `PxQuat`. -/
structure FQuat where
  X : ℚ
  Y : ℚ
  Z : ℚ
  W : ℚ
  deriving DecidableEq

/-- The engine rotator `FRotator`. -/
structure FRotator where
  Pitch : ℚ
  Yaw : ℚ
  Roll : ℚ
  deriving DecidableEq

/-- The engine transform `FTransform` (also standing for `PxTransform`). -/
structure FTransform where
  Rotation : FQuat
  Translation : FVector
  Scale3D : FVector
  deriving DecidableEq

def FVector.zero : FVector := ⟨0, 0, 0⟩

def FVector.add (a b : FVector) : FVector := ⟨a.X + b.X, a.Y + b.Y, a.Z + b.Z⟩

def FVector.sub (a b : FVector) : FVector := ⟨a.X - b.X, a.Y - b.Y, a.Z - b.Z⟩

def FVector.magnitudeSquared (a : FVector) : ℚ := a.X * a.X + a.Y * a.Y + a.Z * a.Z

def FQuat.identity : FQuat := ⟨0, 0, 0, 1⟩

def FQuat.dot (a b : FQuat) : ℚ := a.X * b.X + a.Y * b.Y + a.Z * b.Z + a.W * b.W

def FRotator.ZeroRotator : FRotator := ⟨0, 0, 0⟩

/-- The default constructed `FTransform()`: identity. -/
def FTransform.identity : FTransform := ⟨FQuat.identity, FVector.zero, ⟨1, 1, 1⟩⟩

def FTransform.SetLocation (t : FTransform) (v : FVector) : FTransform :=
  { t with Translation := v }

def FTransform.SetRotation (t : FTransform) (q : FQuat) : FTransform :=
  { t with Rotation := q }

/-- `FMath::Clamp(X, Min, Max)`: `X < Min ? Min : X < Max ? X : Max`. -/
def FMathClamp (x lo hi : ℚ) : ℚ :=
  if x < lo then lo else if x < hi then x else hi

/-- `FMath::IsNearlyEqual(A, B, Tolerance)`: `Abs(A - B) <= Tolerance`. -/
def IsNearlyEqual (a b tol : ℚ) : Bool :=
  decide (|a - b| ≤ tol)

/-! ## VRPhysicsHandleComponent -/

/-- The struct `FPhysicsHandleData` of VRPhysicsHandleComponent.h. -/
structure FPhysicsHandleData where
  handleDataEnabled : Bool
  linearDamping : ℚ
  linearStiffness : ℚ
  angularDamping : ℚ
  angularStiffness : ℚ
  maxLinearForce : ℚ
  maxAngularForce : ℚ
  interpSpeed : ℚ
  softAngularConstraint : Bool
  softLinearConstraint : Bool
  interpolate : Bool
  updateTargetLocation : Bool
  deriving DecidableEq

/-- The constructor `FPhysicsHandleData()` with its default arguments. -/
def FPhysicsHandleData.default : FPhysicsHandleData where
  handleDataEnabled := false
  linearDamping := 200
  angularDamping := 200
  linearStiffness := 35000
  angularStiffness := 30000
  interpSpeed := 50
  softAngularConstraint := true
  softLinearConstraint := true
  maxLinearForce := 10000
  maxAngularForce := 10000
  interpolate := false
  updateTargetLocation := true

/-- PhysX `PxD6Motion::Enum`. -/
inductive PxD6Motion where
  | eLOCKED
  | eLIMITED
  | eFREE
  deriving DecidableEq, Repr

/-- PhysX `PxD6JointDrive(stiffness, damping, forceLimit, isAcceleration)`. -/
structure PxD6JointDrive where
  stiffness : ℚ
  damping : ℚ
  forceLimit : ℚ
  isAcceleration : Bool
  deriving DecidableEq

/-- The joint settings the component writes on its `PxD6Joint`. -/
structure PxD6Joint where
  motionX : PxD6Motion
  motionY : PxD6Motion
  motionZ : PxD6Motion
  motionTWIST : PxD6Motion
  motionSWING1 : PxD6Motion
  motionSWING2 : PxD6Motion
  driveX : PxD6JointDrive
  driveY : PxD6JointDrive
  driveZ : PxD6JointDrive
  driveSLERP : PxD6JointDrive
  drivePosition : FVector
  deriving DecidableEq

/-- A joint as `PxD6JointCreate` returns it: every axis locked, no drive. -/
def PxD6Joint.created : PxD6Joint where
  motionX := .eLOCKED
  motionY := .eLOCKED
  motionZ := .eLOCKED
  motionTWIST := .eLOCKED
  motionSWING1 := .eLOCKED
  motionSWING2 := .eLOCKED
  driveX := ⟨0, 0, 0, false⟩
  driveY := ⟨0, 0, 0, false⟩
  driveZ := ⟨0, 0, 0, false⟩
  driveSLERP := ⟨0, 0, 0, false⟩
  drivePosition := FVector.zero

/-- The kinematic `PxRigidDynamic` the joint is attached to. -/
structure PxRigidDynamic where
  globalPose : FTransform
  kinematicTarget : Option FTransform
  deriving DecidableEq

/-- The fields of `UVRPhysicsHandleComponent`. -/
structure UVRPhysicsHandleComponent where
  handleData : FPhysicsHandleData
  originalData : FPhysicsHandleData
  grabbedComponent : Option ObjId
  targetComponent : Option ObjId
  grabbedBoneName : Option FName
  jointTransformGrabbable : FTransform
  reposition : Bool
  repositionDistance : ℚ
  updateTargetRotation : Bool
  targetTransform : FTransform
  currentTransform : FTransform
  grabOffset : Bool
  joint : Option PxD6Joint
  targetActor : Option PxRigidDynamic
  targetOffset : FTransform
  extraLocationOffset : FVector
  extraRotationOffset : FRotator
  grabbedOffset : FTransform
  rotationConstraint : Bool
  teleported : Bool
  deriving DecidableEq

/-- What the engine answers during one `CreateJoint` call. -/
structure JointWorld where
  /-- Does `comp->GetBodyInstance(boneName)` return a body instance. -/
  hasBodyInstance : ObjId → FName → Bool
  /-- Does `GetPxRigidActor_AssumesLocked` return an actor. -/
  hasRigidActor : ObjId → FName → Bool
  /-- Does `PxD6JointCreate` return a joint. -/
  jointCreated : Bool
  /-- The quaternion of a rotator, `FRotator::Quaternion()`. -/
  quaternion : FRotator → FQuat
  /-- The rotator of a quaternion, `FQuat::Rotator()`. -/
  rotator : FQuat → FRotator
  /-- The world transform of a component, `GetComponentTransform()`. -/
  componentTransform : ObjId → FTransform
  /-- The engine `InverseTransformPositionNoScale`. -/
  inverseTransformPositionNoScale : FTransform → FVector → FVector
  /-- The engine `InverseTransformRotation`. -/
  inverseTransformRotation : FTransform → FQuat → FQuat

namespace UVRPhysicsHandleComponent

/-- The method `BeginPlay`: save the original handle data. -/
def BeginPlay (s : UVRPhysicsHandleComponent) : UVRPhysicsHandleComponent :=
  { s with originalData := s.handleData }

/-- The method `ReinitJoint`: rewrite motions and drives of an existing joint. -/
def ReinitJoint (s : UVRPhysicsHandleComponent) : UVRPhysicsHandleComponent :=
  match s.joint with
  | none => s
  | some j =>
    let LocationMotionType : PxD6Motion :=
      if s.handleData.softLinearConstraint then .eFREE else .eLOCKED
    let RotationMotionType : PxD6Motion :=
      if s.handleData.softAngularConstraint || !s.rotationConstraint then .eFREE else .eLOCKED
    let j1 : PxD6Joint :=
      { j with
        motionX := LocationMotionType
        motionY := LocationMotionType
        motionZ := LocationMotionType
        drivePosition := FVector.zero
        motionTWIST := RotationMotionType
        motionSWING1 := RotationMotionType
        motionSWING2 := RotationMotionType }
    let linearDrive : PxD6JointDrive :=
      if s.handleData.softLinearConstraint then
        ⟨s.handleData.linearStiffness, s.handleData.linearDamping,
          s.handleData.maxLinearForce, true⟩
      else ⟨0, 0, 0, false⟩
    let j2 : PxD6Joint :=
      { j1 with driveX := linearDrive, driveY := linearDrive, driveZ := linearDrive }
    let j3 : PxD6Joint :=
      if s.rotationConstraint then
        if s.handleData.softAngularConstraint then
          { j2 with driveSLERP :=
              ⟨s.handleData.angularStiffness, s.handleData.angularDamping,
                s.handleData.maxAngularForce, true⟩ }
        else { j2 with driveSLERP := ⟨0, 0, 0, false⟩ }
      else j2
    { s with joint := some j3 }

/-- The method `ToggleDrive`. -/
def ToggleDrive (s : UVRPhysicsHandleComponent) (linearDrive angularDrive : Bool) :
    UVRPhysicsHandleComponent :=
  ReinitJoint
    { s with handleData :=
        { s.handleData with
          softLinearConstraint := linearDrive
          softAngularConstraint := angularDrive } }

/-- The method `UpdateJointValues`. -/
def UpdateJointValues (s : UVRPhysicsHandleComponent) (newData : FPhysicsHandleData) :
    UVRPhysicsHandleComponent :=
  ReinitJoint { s with handleData := newData }

/-- The method `ResetJoint`. -/
def ResetJoint (s : UVRPhysicsHandleComponent) : UVRPhysicsHandleComponent :=
  UpdateJointValues s s.originalData

/-- The method `ToggleRotationConstraint`. -/
def ToggleRotationConstraint (s : UVRPhysicsHandleComponent) (onFlag : Bool) :
    UVRPhysicsHandleComponent :=
  ReinitJoint { s with rotationConstraint := onFlag }

/-- The method `UpdateHandleTransform`: move the kinematic target actor when the
new transform differs enough from its pose.  The rotation threshold `1.0f - SMALL_NUMBER`
(`SMALL_NUMBER` is `1e-8f`) is the single-precision value `1.0f`, the float nearest to
`1 - 1e-8`, so the rotation counts as unchanged only when the dot product exceeds one. -/
def UpdateHandleTransform (s : UVRPhysicsHandleComponent) (updatedTransform : FTransform) :
    UVRPhysicsHandleComponent :=
  match s.targetActor with
  | none => s
  | some actor =>
    let newTargetLoc := updatedTransform.Translation
    let currentTargetLoc := actor.globalPose.Translation
    let samePos : Bool :=
      decide ((newTargetLoc.sub currentTargetLoc).magnitudeSquared ≤ (1 / 100) * (1 / 100))
    let newTargetOrientation := updatedTransform.Rotation
    let currentTargetOrientation := actor.globalPose.Rotation
    let sameRot : Bool :=
      decide (|newTargetOrientation.dot currentTargetOrientation| > 1)
    let changedPos := !samePos
    let changedRot := !sameRot
    if changedPos || changedRot then
      let newTarget : FTransform :=
        { Rotation := if sameRot then currentTargetOrientation else newTargetOrientation
          Translation := if samePos then currentTargetLoc else newTargetLoc
          Scale3D := ⟨1, 1, 1⟩ }
      { s with targetActor := some { actor with kinematicTarget := some newTarget } }
    else s

/-- The method `SetTarget`; `CHECK_RETURN` logs and returns when its condition holds. -/
def SetTarget (s : UVRPhysicsHandleComponent) (newTargetTransform : FTransform)
    (updateTransformInstantly : Bool) : UVRPhysicsHandleComponent :=
  if s.handleData.updateTargetLocation then s
  else
    let s1 := { s with targetTransform := newTargetTransform }
    if updateTransformInstantly then
      let s2 := { s1 with currentTransform := s1.targetTransform }
      UpdateHandleTransform s2 s2.currentTransform
    else s1

/-- The method `DestroyJoint`. -/
def DestroyJoint (s : UVRPhysicsHandleComponent) : UVRPhysicsHandleComponent :=
  match s.grabbedComponent with
  | none => s
  | some _ =>
    let s1 : UVRPhysicsHandleComponent :=
      match s.joint with
      | none => s
      | some _ => { s with targetActor := none, joint := none }
    { s1 with
      handleData := s1.originalData
      grabbedComponent := none
      grabbedBoneName := none
      jointTransformGrabbable := FTransform.identity
      currentTransform := FTransform.identity
      targetTransform := FTransform.identity }

/-- The physics write of `CreateJoint` (the lambda given to `ExecuteWrite`). -/
def CreateJointWrite (w : JointWorld) (s : UVRPhysicsHandleComponent) (comp : ObjId)
    (boneName : FName) (grabLocation : FVector) (grabOrientation : FRotator)
    (constrainRotation : Bool) (interactableData : FPhysicsHandleData) :
    UVRPhysicsHandleComponent :=
  if w.hasRigidActor comp boneName then
    let s1 := if interactableData.handleDataEnabled then
      { s with handleData := interactableData } else s
    let jointTransform : FTransform :=
      ⟨w.quaternion grabOrientation, grabLocation, ⟨1, 1, 1⟩⟩
    let s2 := { s1 with targetTransform := jointTransform, currentTransform := jointTransform }
    match s2.joint with
    | some _ => s2
    | none =>
      let s3 := { s2 with targetActor := some ⟨jointTransform, none⟩ }
      if w.jointCreated then
        ReinitJoint
          { s3 with joint := some PxD6Joint.created, rotationConstraint := constrainRotation }
      else { s3 with joint := none }
  else s

/-- The method `CreateJoint`.  `target` is dereferenced for `grabbedOffset`
before the `if (target)` test that follows. -/
def CreateJoint (w : JointWorld) (s : UVRPhysicsHandleComponent) (comp target : Option ObjId)
    (boneName : FName) (grabLocation : FVector) (grabOrientation : FRotator)
    (constrainRotation : Bool) (interactableData : FPhysicsHandleData) :
    Except Fault UVRPhysicsHandleComponent :=
  let s0 := if s.grabbedComponent.isSome then DestroyJoint s else s
  match comp with
  | none => .ok s0
  | some c =>
    if !w.hasBodyInstance c boneName then .ok s0
    else
      let s1 := CreateJointWrite w s0 c boneName grabLocation grabOrientation
        constrainRotation interactableData
      let s2 := { s1 with grabbedComponent := some c, grabbedBoneName := some boneName }
      let grabbedCompTransform := w.componentTransform c
      let s3 := { s2 with
        jointTransformGrabbable :=
          (s2.jointTransformGrabbable.SetLocation
            (w.inverseTransformPositionNoScale grabbedCompTransform grabLocation)).SetRotation
            (w.inverseTransformRotation grabbedCompTransform (w.quaternion grabOrientation)) }
      match target with
      | none => .error Fault.nullDeref
      | some t =>
        let targetTransformW := w.componentTransform t
        let s4 := { s3 with
          grabbedOffset :=
            (s3.grabbedOffset.SetLocation
              (w.inverseTransformPositionNoScale targetTransformW
                grabbedCompTransform.Translation)).SetRotation
              (w.inverseTransformRotation targetTransformW grabbedCompTransform.Rotation) }
        let targetLocOffset := w.inverseTransformPositionNoScale targetTransformW grabLocation
        let targetRotOffset :=
          w.rotator (w.inverseTransformRotation targetTransformW (w.quaternion grabOrientation))
        .ok { s4 with
          targetComponent := some t
          targetOffset := ⟨w.quaternion targetRotOffset, targetLocOffset,
            s4.targetTransform.Scale3D⟩ }

/-- The overload `CreateJointAndFollowLocation(comp, target, boneName, ...)`. -/
def CreateJointAndFollowLocationTarget (w : JointWorld) (s : UVRPhysicsHandleComponent)
    (comp target : Option ObjId) (boneName : FName) (jointLocation : FVector)
    (interactableData : FPhysicsHandleData) : Except Fault UVRPhysicsHandleComponent :=
  CreateJoint w s comp target boneName jointLocation FRotator.ZeroRotator false interactableData

/-- The overload `CreateJointAndFollowLocation(comp, boneName, ...)` without a target. -/
def CreateJointAndFollowLocation (w : JointWorld) (s : UVRPhysicsHandleComponent)
    (comp : Option ObjId) (boneName : FName) (jointLocation : FVector)
    (interactableData : FPhysicsHandleData) : Except Fault UVRPhysicsHandleComponent :=
  CreateJoint w s comp none boneName jointLocation FRotator.ZeroRotator false interactableData

/-- The component as its constructor leaves it. -/
def constructed : UVRPhysicsHandleComponent where
  handleData := FPhysicsHandleData.default
  originalData := FPhysicsHandleData.default
  grabbedComponent := none
  targetComponent := none
  grabbedBoneName := none
  jointTransformGrabbable := FTransform.identity
  reposition := false
  repositionDistance := 18
  updateTargetRotation := true
  targetTransform := FTransform.identity
  currentTransform := FTransform.identity
  grabOffset := true
  joint := none
  targetActor := none
  targetOffset := FTransform.identity
  extraLocationOffset := FVector.zero
  extraRotationOffset := FRotator.ZeroRotator
  grabbedOffset := FTransform.identity
  rotationConstraint := false
  teleported := false

/-- A world in which every component has a physics body and transforms are trivial. -/
def simpleWorld : JointWorld where
  hasBodyInstance := fun _ _ => true
  hasRigidActor := fun _ _ => true
  jointCreated := true
  quaternion := fun _ => FQuat.identity
  rotator := fun _ => FRotator.ZeroRotator
  componentTransform := fun _ => FTransform.identity
  inverseTransformPositionNoScale := fun _ v => v
  inverseTransformRotation := fun _ q => q

/-- The constructed component once a client drives the target itself. -/
def manualTarget : UVRPhysicsHandleComponent :=
  { constructed with
    handleData := { FPhysicsHandleData.default with updateTargetLocation := false } }

/-- A transform five units along X. -/
def movedTransform : FTransform := ⟨FQuat.identity, ⟨5, 0, 0⟩, ⟨1, 1, 1⟩⟩

/-- The calls a client makes on the joint values between `BeginPlay` and `ResetJoint`. -/
inductive JointCall where
  | UpdateJointValues (newData : FPhysicsHandleData)
  | ToggleDrive (linearDrive angularDrive : Bool)

/-- Run one client call. -/
def JointCall.run (s : UVRPhysicsHandleComponent) : JointCall → UVRPhysicsHandleComponent
  | .UpdateJointValues d => s.UpdateJointValues d
  | .ToggleDrive l a => s.ToggleDrive l a

/-- Run a sequence of client calls, first to last. -/
def runCalls (s : UVRPhysicsHandleComponent) (calls : List JointCall) :
    UVRPhysicsHandleComponent :=
  calls.foldl JointCall.run s

end UVRPhysicsHandleComponent

/-! ## EffectsContainer -/

/-- A `TMap<FName, T*>`: keys with the stored pointer (which may itself be null). -/
abbrev TMap := List (FName × Option ObjId)

/-- The engine `TMap::Find`: a pointer to the stored value, null when the key is absent. -/
def TMap.Find (m : TMap) (key : FName) : Option (Option ObjId) :=
  m.lookup key

/-- The fields of `UEffectsContainer`. -/
structure UEffectsContainer where
  feedbackContainer : TMap
  particlesContainer : TMap
  audioContainer : TMap

namespace UEffectsContainer

/-- The method `GetFeedback`: `*feedbackContainer.Find(feedbackName)` reads through the
pointer `Find` returns, then tests the value read. -/
def GetFeedback (c : UEffectsContainer) (feedbackName : FName) : Except Fault (Option ObjId) :=
  match c.feedbackContainer.Find feedbackName with
  | none => .error Fault.nullDeref
  | some feedbackFound =>
    match feedbackFound with
    | some f => .ok (some f)
    | none => .ok none

/-- The method `GetParticleSystem`. -/
def GetParticleSystem (c : UEffectsContainer) (particleName : FName) :
    Except Fault (Option ObjId) :=
  match c.particlesContainer.Find particleName with
  | none => .error Fault.nullDeref
  | some particleFound =>
    match particleFound with
    | some f => .ok (some f)
    | none => .ok none

/-- The method `GetAudio`. -/
def GetAudio (c : UEffectsContainer) (audioName : FName) : Except Fault (Option ObjId) :=
  match c.audioContainer.Find audioName with
  | none => .error Fault.nullDeref
  | some audioFound =>
    match audioFound with
    | some f => .ok (some f)
    | none => .ok none

end UEffectsContainer

/-! ## VRHand -/

/-- The engine enum `EControllerHand`. -/
inductive EControllerHand where
  | Left
  | Right
  | AnyHand
  | Pad
  | ExternalCamera
  | Gun
  deriving DecidableEq, Repr

/-- The haptic slots of the engine `APlayerController`; a shared pointer is valid
when it holds an effect. -/
structure APlayerController where
  ActiveHapticEffect_Left : Option ObjId
  ActiveHapticEffect_Right : Option ObjId
  deriving DecidableEq

/-- A call of `APlayerController::PlayHapticEffect(effect, hand, scale, loop)`. -/
structure HapticCall where
  effect : ObjId
  hand : EControllerHand
  scale : ℚ
  loop : Bool
  deriving DecidableEq

/-- The fields of `AVRHand` the grabbing and feedback code works on.  `pawnEffects`
is what `GetEffects()` returns. -/
structure AVRHand where
  handEnum : EControllerHand
  owningController : Option APlayerController
  pawnEffects : Option UEffectsContainer
  currentHapticIntesity : ℚ
  objectToGrab : Option ObjId
  objectInHand : Option ObjId
  grabbing : Bool
  hideOnGrab : Bool
  handSkelVisible : Bool
  collisionEnabled : Bool

namespace AVRHand

/-- The method `IsPlayingFeedback`. -/
def IsPlayingFeedback (h : AVRHand) : Bool :=
  match h.owningController with
  | none => false
  | some c =>
    if h.handEnum = EControllerHand.Left ∧ c.ActiveHapticEffect_Left.isSome then true
    else if c.ActiveHapticEffect_Right.isSome then true
    else false

/-- The method `GetCurrentFeedbackIntensity`. -/
def GetCurrentFeedbackIntensity (h : AVRHand) : ℚ :=
  if h.IsPlayingFeedback then h.currentHapticIntesity else 0

/-- The method `PlayFeedback`: the returned flag, the hand afterwards and the call made
on the owning controller, if any. -/
def PlayFeedback (h : AVRHand) (feedback : Option ObjId) (intensity : ℚ) (replace : Bool) :
    Except Fault (Bool × AVRHand × Option HapticCall) :=
  match h.owningController with
  | none => .ok (false, h, none)
  | some _ =>
    let shouldPlay : Bool :=
      if replace then true
      else if h.IsPlayingFeedback then decide (h.GetCurrentFeedbackIntensity < intensity)
      else true
    if shouldPlay then
      let feedbackToUse : Except Fault (Option ObjId) :=
        match feedback with
        | some f => .ok (some f)
        | none =>
          match h.pawnEffects with
          | none => .error Fault.nullDeref
          | some effects => effects.GetFeedback "Default"
      match feedbackToUse with
      | .error e => .error e
      | .ok (some f) =>
        .ok (true, { h with currentHapticIntesity := intensity },
          some ⟨f, h.handEnum, intensity, false⟩)
      | .ok none => .ok (false, h, none)
    else .ok (false, h, none)

/-- The method `ActivateCollision`, as far as the hand fields go. -/
def ActivateCollision (h : AVRHand) (enable : Bool) : AVRHand :=
  { h with collisionEnabled := enable }

/-- The method `ReleaseGrabbedActor`. -/
def ReleaseGrabbedActor (h : AVRHand) : AVRHand :=
  match h.objectInHand with
  | none => h
  | some _ =>
    let h1 := { h with objectInHand := none, objectToGrab := none }
    let h2 := if h1.hideOnGrab then { h1 with handSkelVisible := true } else h1
    h2.ActivateCollision true

end AVRHand

/-- A hand together with the hand its `otherHand` pointer refers to. -/
structure HandPair where
  self : AVRHand
  otherHand : Option AVRHand

namespace AVRHand

/-- The method `Grab`.  `twoHandedGrabbing` reads the interface settings of an object;
the interface events sent to the grabbed object are not part of the hand state. -/
def Grab (twoHandedGrabbing : ObjId → Bool) (p : HandPair) : Except Fault HandPair :=
  let h0 := { p.self with grabbing := true }
  match h0.objectToGrab, h0.objectInHand with
  | some o, none =>
    let other : Option AVRHand :=
      match p.otherHand with
      | none => none
      | some oh =>
        if some o = oh.objectInHand then
          if !twoHandedGrabbing o then some oh.ReleaseGrabbedActor else some oh
        else some oh
    let h1 := h0.ActivateCollision false
    let h2 := if h1.hideOnGrab then { h1 with handSkelVisible := false } else h1
    let h3 := { h2 with objectInHand := h2.objectToGrab }
    match h3.PlayFeedback none 1 false with
    | .error e => .error e
    | .ok (_, h4, _) => .ok ⟨h4, other⟩
  | _, _ => .ok { p with self := h0 }

/-- The method `ForceGrab`. -/
def ForceGrab (twoHandedGrabbing : ObjId → Bool) (p : HandPair)
    (objectToForceGrab : Option ObjId) : Except Fault HandPair :=
  let h1 := { p.self with objectInHand := none }
  if h1.grabbing then
    Grab twoHandedGrabbing { p with self := { h1 with objectToGrab := objectToForceGrab } }
  else .ok { p with self := h1 }

/-- The method `Drop`. -/
def Drop (h : AVRHand) : AVRHand :=
  let h1 := if h.objectInHand.isSome then h.ReleaseGrabbedActor else h
  { h1 with grabbing := false }

/-- A hand that is not grabbing holds nothing. -/
def HoldsOnlyWhileGrabbing (h : AVRHand) : Prop :=
  h.grabbing = false → h.objectInHand = none

end AVRHand

/-! ## VRMovement -/

/-- The enum `EVRMovementMode` (the source calls the fifth mode Lean). -/
inductive EVRMovementMode where
  | Developer
  | Teleport
  | SpeedRamp
  | Joystick
  | LeanMove
  | SwingingArms
  deriving DecidableEq, Repr

/-- What the engine answers during one `UpdateTeleport` call. -/
structure TeleportFrame where
  /-- The Z of the forward vector of the hand, `GetForwardVector().Z`. -/
  handForwardZ : ℚ
  /-- The number of positions the projectile trace returns. -/
  pathPositions : Nat
  /-- The value `hit.Location + hit.Normal` when the trace has a blocking hit. -/
  blockingHit : Option FVector
  /-- Is there a navigation system. -/
  navSystem : Bool
  /-- The location `K2_ProjectPointToNavigation` finds, if the point is on the nav-mesh. -/
  foundLocation : Option FVector
  /-- The location of the blocking hit of the final floor trace, if any. -/
  navMeshHeightError : Option FVector
  /-- The size of the thumbstick offset. -/
  thumbOffsetSize : ℚ
  /-- The look-at rotation of the thumbstick offset. -/
  thumbRotation : FRotator
  /-- The yaw of the camera. -/
  cameraYaw : ℚ

/-- The fields of `AVRMovement` the teleport code works on.  `splineMeshes` counts the
spline mesh components, `teleportTimer` is the pending timer bound to `TeleportPlayer`,
and `playerMoves` lists the calls that moved the player. -/
structure AVRMovement where
  player : Option ObjId
  playerController : Option ObjId
  currentMovementMode : EVRMovementMode
  currentMovingHand : Option ObjId
  firstMove : Bool
  requiresNavMesh : Bool
  teleportFade : Bool
  teleportDeadzone : ℚ
  lastTeleportValid : Bool
  teleporting : Bool
  lastValidTeleportLocation : FVector
  teleportRotation : FRotator
  splineMeshes : Nat
  teleportSplineEndMeshVisible : Bool
  teleportRingVisible : Bool
  teleportArrowVisible : Bool
  teleportMaterialsValid : Bool
  teleportTimer : Bool
  cameraFades : Nat
  playerMoves : List (FVector × FRotator)
  deriving DecidableEq

namespace AVRMovement

/-- The method `DestroyTeleportSpline`. -/
def DestroyTeleportSpline (s : AVRMovement) : AVRMovement :=
  { s with splineMeshes := 0, teleportSplineEndMeshVisible := false,
           teleportRingVisible := false, teleportArrowVisible := false }

/-- The method `UpdateTeleportMaterials`. -/
def UpdateTeleportMaterials (s : AVRMovement) (valid : Bool) : AVRMovement :=
  { s with teleportMaterialsValid := valid }

/-- The method `CreateTeleportSpline`: the returned flag, the out location and the state. -/
def CreateTeleportSpline (f : TeleportFrame) (s : AVRMovement) (outLocation : FVector) :
    Bool × FVector × AVRMovement :=
  if IsNearlyEqual f.handForwardZ 1 (3 / 10) then
    let s1 := { s with splineMeshes := s.splineMeshes + 1, teleportSplineEndMeshVisible := true }
    (false, outLocation, s1.UpdateTeleportMaterials false)
  else
    let s1 := { s with splineMeshes := s.splineMeshes + (f.pathPositions - 1),
                       teleportSplineEndMeshVisible := true }
    match f.blockingHit with
    | some loc => (true, loc, s1)
    | none => (false, outLocation, ({ s1 with lastTeleportValid := false }).UpdateTeleportMaterials false)

/-- The method `ValidateTeleportLocation`: the returned flag and the updated location. -/
def ValidateTeleportLocation (f : TeleportFrame) (location : FVector) : Bool × FVector :=
  if f.navSystem then
    match f.foundLocation with
    | some found =>
      match f.navMeshHeightError with
      | some hitLocation => (true, hitLocation)
      | none => (true, found)
    | none => (false, location)
  else (false, location)

/-- The method `UpdateTeleport`. -/
def UpdateTeleport (f : TeleportFrame) (s : AVRMovement) : AVRMovement :=
  let s0 := s.DestroyTeleportSpline
  match CreateTeleportSpline f s0 FVector.zero with
  | (false, _, s1) => s1
  | (true, splineEndLocation, s1) =>
    let checked : Bool × FVector :=
      if s1.requiresNavMesh then ValidateTeleportLocation f splineEndLocation
      else (true, splineEndLocation)
    let s2 := { s1 with lastTeleportValid := checked.1 }
    if s2.lastTeleportValid then
      let s3 := { s2 with lastValidTeleportLocation := checked.2 }
      let s4 : AVRMovement :=
        if f.thumbOffsetSize > FMathClamp s3.teleportDeadzone 0 1 then
          { s3 with
            teleportRotation :=
              ⟨f.thumbRotation.Pitch, f.cameraYaw + f.thumbRotation.Yaw + 90,
                f.thumbRotation.Roll⟩
            teleportArrowVisible := true }
        else
          { s3 with teleportRotation := FRotator.ZeroRotator, teleportArrowVisible := false }
      ({ s4 with teleportRingVisible := true }).UpdateTeleportMaterials true
    else s2.UpdateTeleportMaterials false

/-- The method `TeleportPlayer`. -/
def TeleportPlayer (s : AVRMovement) : AVRMovement :=
  let s0 := if s.splineMeshes > 0 then s.DestroyTeleportSpline else s
  let s1 : AVRMovement :=
    if s0.currentMovementMode = EVRMovementMode.Developer then
      { s0 with playerMoves :=
          s0.playerMoves ++
            [(s0.lastValidTeleportLocation.add ⟨0, 0, 150⟩, FRotator.ZeroRotator)] }
    else
      let s2 := { s0 with playerMoves :=
          s0.playerMoves ++ [(s0.lastValidTeleportLocation, s0.teleportRotation)] }
      let s3 := if s2.teleportFade ∧ s2.playerController.isSome then
        { s2 with cameraFades := s2.cameraFades + 1 } else s2
      { s3 with teleporting := false }
  { s1 with lastTeleportValid := false }

/-- The method `TeleportCameraFade`: fade, then `TeleportPlayer` when the timer fires. -/
def TeleportCameraFade (s : AVRMovement) : AVRMovement :=
  if s.lastTeleportValid then
    let s0 := if s.splineMeshes > 0 then s.DestroyTeleportSpline else s
    let s1 := if s0.playerController.isSome then
      { s0 with cameraFades := s0.cameraFades + 1 } else s0
    { s1 with teleportTimer := true, teleporting := true }
  else s

/-- The timer set by `TeleportCameraFade` fires and runs `TeleportPlayer`. -/
def TeleportTimerFires (s : AVRMovement) : AVRMovement :=
  if s.teleportTimer then ({ s with teleportTimer := false }).TeleportPlayer else s

/-- The method `UpdateMovement`.  `controllerMovement` stands for what the branch of the
modes Lean, SpeedRamp, Joystick and SwingingArms does with the state.  The mode Lean
first calls `teleportRing->SetVisibility(false, true)`, which also hides the arrow attached
to the ring. -/
def UpdateMovement (controllerMovement : AVRMovement → Bool → AVRMovement)
    (f : TeleportFrame) (s : AVRMovement) (movementHand : Option ObjId) (released : Bool) :
    AVRMovement :=
  match s.player, movementHand with
  | some _, some hand =>
    let s0 := if !released then { s with currentMovingHand := some hand } else s
    let s1 : AVRMovement :=
      match s0.currentMovementMode with
      | .Developer =>
        if released then
          if s0.lastTeleportValid then s0.TeleportPlayer else s0.DestroyTeleportSpline
        else UpdateTeleport f s0
      | .Teleport =>
        if !s0.teleporting then
          if released then
            if s0.lastTeleportValid then
              if s0.teleportFade then s0.TeleportCameraFade else s0.TeleportPlayer
            else s0.DestroyTeleportSpline
          else UpdateTeleport f s0
        else s0
      | .LeanMove =>
        controllerMovement
          { s0 with teleportRingVisible := false, teleportArrowVisible := false } released
      | .SpeedRamp => controllerMovement s0 released
      | .Joystick => controllerMovement s0 released
      | .SwingingArms => controllerMovement s0 released
    if released then { s1 with firstMove := true, currentMovingHand := none }
    else if s1.firstMove then { s1 with firstMove := false } else s1
  | _, _ => s

/-- One `UpdateMovement` call of a play session: the hand, the released flag and what
the engine answers during the call. -/
structure MovementCall where
  frame : TeleportFrame
  movementHand : Option ObjId
  released : Bool

/-- Run a sequence of `UpdateMovement` calls, first to last. -/
def runMovement (controllerMovement : AVRMovement → Bool → AVRMovement)
    (s : AVRMovement) (calls : List MovementCall) : AVRMovement :=
  calls.foldl (fun st c => UpdateMovement controllerMovement c.frame st c.movementHand c.released) s

end AVRMovement

/-! ## RotatableStaticMesh -/

/-- The enum `EGrabMode` of the rotatable. -/
inductive EGrabMode where
  | Static
  | Physics
  deriving DecidableEq, Repr

/-- The enum `ERotateAxis`. -/
inductive ERotateAxis where
  | Pitch
  | Yaw
  | Roll
  deriving DecidableEq, Repr

/-- The engine `FMod(A, B)`: the remainder of the division truncated towards zero. -/
def FMod (a b : ℚ) : ℚ :=
  a - b * (((a / b).num.tdiv (a / b).den : ℤ) : ℚ)

/-- The function `UVRFunctionLibrary::GetAngleFromCumulativeAngle`. -/
def GetAngleFromCumulativeAngle (angle : ℚ) : ℚ :=
  let bNegative : Bool := decide (angle < 0)
  let angleRemainder := FMod angle 360
  if !bNegative then
    if angleRemainder > 180 then angleRemainder - 360 else angleRemainder
  else
    if angleRemainder < -180 then angleRemainder + 360 else angleRemainder

/-- The fields of `URotatableStaticMesh` the rotation setters work on.
`rotationUpdateCurve` tells whether a curve is set, `timelinePlaying` whether the
rotation timeline was started, `relativeRotation` is the relative rotation of the mesh. -/
structure URotatableStaticMesh where
  handRef : Option ObjId
  grabMode : EGrabMode
  rotateAxis : ERotateAxis
  fakePhysics : Bool
  lockOnlyUpdate : Bool
  rotationLimit : ℚ
  centerRotationLimit : Bool
  cumulativeAngle : ℚ
  actualCumulativeAngle : ℚ
  currentAngleChange : ℚ
  angleChangeOnRelease : ℚ
  rotationAlpha : ℚ
  firstRun : Bool
  lockable : Bool
  locked : Bool
  grabWhileLocked : Bool
  cannotLock : Bool
  releaseWhenLocked : Bool
  interpolating : Bool
  lockOnTimelineEnd : Bool
  rotationUpdateCurve : Bool
  timelinePlaying : Bool
  timelineStartRotation : ℚ
  timelineEndRotation : ℚ
  interactableActive : Bool
  relativeRotation : FRotator
  deriving DecidableEq

namespace URotatableStaticMesh

/-- The method `GetNewRelativeAngle`. -/
def GetNewRelativeAngle (s : URotatableStaticMesh) (newAngle : ℚ) : FRotator :=
  match s.rotateAxis with
  | .Pitch => ⟨newAngle, s.relativeRotation.Yaw, s.relativeRotation.Roll⟩
  | .Yaw => ⟨s.relativeRotation.Pitch, newAngle, s.relativeRotation.Roll⟩
  | .Roll => ⟨s.relativeRotation.Pitch, s.relativeRotation.Yaw, newAngle⟩

/-- The method `UpdateRotation`. -/
def UpdateRotation (s : URotatableStaticMesh) : URotatableStaticMesh :=
  if !s.lockOnlyUpdate then
    let actualAngle := GetAngleFromCumulativeAngle s.cumulativeAngle
    let updatedRotation := s.GetNewRelativeAngle actualAngle
    match s.grabMode with
    | .Static => { s with relativeRotation := updatedRotation }
    | .Physics => s
  else s

/-- The method `Released_Implementation`, as far as the rotatable fields go. -/
def Released (s : URotatableStaticMesh) : URotatableStaticMesh :=
  let s1 := { s with actualCumulativeAngle := s.cumulativeAngle }
  let s2 := if s1.fakePhysics then { s1 with angleChangeOnRelease := s1.currentAngleChange }
    else s1
  { s2 with handRef := none, firstRun := true }

/-- The method `Lock`; releasing the grabbing hand runs `Released_Implementation`. -/
def Lock (s : URotatableStaticMesh) (lockingAngle : ℚ) : URotatableStaticMesh :=
  if s.lockable then
    let s1 : URotatableStaticMesh :=
      match s.handRef with
      | some _ => if s.releaseWhenLocked then s.Released else s
      | none => s
    let s2 := { s1 with cumulativeAngle := lockingAngle, actualCumulativeAngle := lockingAngle }
    let s3 := { s2 with relativeRotation := s2.GetNewRelativeAngle s2.cumulativeAngle,
                        angleChangeOnRelease := 0 }
    let s4 := if !s3.grabWhileLocked then { s3 with interactableActive := false } else s3
    { s4 with locked := true, firstRun := true, cannotLock := true }
  else s

/-- The method `SetRotatableRotation`. -/
def SetRotatableRotation (s : URotatableStaticMesh) (angle : ℚ) (lockAtAngle : Bool)
    (interpolate : Bool) : URotatableStaticMesh :=
  let absHalfRotationLimit := |s.rotationLimit| / 2
  let clampedAngle : ℚ :=
    if s.centerRotationLimit then FMathClamp angle (-absHalfRotationLimit) absHalfRotationLimit
    else if s.rotationLimit < 0 then FMathClamp angle s.rotationLimit 0
    else FMathClamp angle 0 s.rotationLimit
  if interpolate ∧ s.rotationUpdateCurve then
    { s with
      interpolating := true
      timelineStartRotation := s.cumulativeAngle
      timelineEndRotation := clampedAngle
      lockOnTimelineEnd := lockAtAngle
      timelinePlaying := true }
  else
    let s1 := { s with cumulativeAngle := clampedAngle, actualCumulativeAngle := clampedAngle }
    let s2 := { s1 with rotationAlpha :=
      if s1.centerRotationLimit then s1.cumulativeAngle / (s1.rotationLimit / 2)
      else |s1.cumulativeAngle / s1.rotationLimit| }
    let s3 := { s2.UpdateRotation with angleChangeOnRelease := 0 }
    if lockAtAngle then ({ s3 with lockable := true }).Lock s3.cumulativeAngle
    else s3

end URotatableStaticMesh

/-! ## VRPhysicsHandleComponent: the tick -/

def FRotator.add (a b : FRotator) : FRotator :=
  ⟨a.Pitch + b.Pitch, a.Yaw + b.Yaw, a.Roll + b.Roll⟩

/-- What the engine answers during one `TickComponent` call of the handle. -/
structure TickWorld where
  /-- The world transform of a component, `GetComponentTransform()`. -/
  componentTransform : ObjId → FTransform
  /-- The world rotation of a component, `GetComponentRotation()`. -/
  componentRotation : ObjId → FRotator
  /-- The engine `TransformPositionNoScale`. -/
  transformPositionNoScale : FTransform → FVector → FVector
  /-- The engine `TransformRotation`. -/
  transformRotation : FTransform → FQuat → FQuat
  /-- The quaternion of a rotator, `FRotator::Quaternion()`. -/
  quaternion : FRotator → FQuat
  /-- The rotator of a quaternion, `FQuat::Rotator()`. -/
  rotator : FQuat → FRotator
  /-- The length of a vector, `FVector::Size()`. -/
  size : FVector → ℚ
  /-- Does the grabbed component overlap a physics body at the reposition target. -/
  overlapping : Bool
  /-- The engine `FTransform::NormalizeRotation`. -/
  normalizeRotation : FTransform → FTransform
  /-- The engine `FTransform::Blend`. -/
  blend : FTransform → FTransform → ℚ → FTransform

namespace UVRPhysicsHandleComponent

/-- The method `GetGrabbedTargetTransform`; it reads through `targetComponent`. -/
def GetGrabbedTargetTransform (w : TickWorld) (s : UVRPhysicsHandleComponent) :
    Except Fault FTransform :=
  match s.targetComponent with
  | none => .error Fault.nullDeref
  | some t =>
    let newPos := w.transformPositionNoScale (w.componentTransform t) s.grabbedOffset.Translation
    let newRot := w.rotator (w.transformRotation (w.componentTransform t) s.grabbedOffset.Rotation)
    .ok ⟨w.quaternion newRot, newPos, ⟨0, 0, 0⟩⟩

/-- The method `TeleportGrabbedComp`, as far as the handle goes: the drive is made rigid and
`teleported` is set.  Moving the grabbed component and the timer that later calls
`ToggleDrive(true, true)` are effects on the world. -/
def TeleportGrabbedComp (s : UVRPhysicsHandleComponent) : UVRPhysicsHandleComponent :=
  if s.grabbedComponent.isSome ∧ s.targetComponent.isSome ∧
      s.handleData.softLinearConstraint = true then
    { s.ToggleDrive false false with teleported := true }
  else s

/-- The method `UpdateRepositionCheck`; it reads through `grabbedComponent` without a test. -/
def UpdateRepositionCheck (w : TickWorld) (s : UVRPhysicsHandleComponent) :
    Except Fault UVRPhysicsHandleComponent :=
  match GetGrabbedTargetTransform w s with
  | .error e => .error e
  | .ok targetTransformLocal =>
    match s.grabbedComponent with
    | none => .error Fault.nullDeref
    | some g =>
      let distanceToTarget :=
        w.size (targetTransformLocal.Translation.sub (w.componentTransform g).Translation)
      if distanceToTarget ≥ s.repositionDistance then
        if !w.overlapping then .ok s.TeleportGrabbedComp else .ok s
      else .ok s

/-- The target transform `TickComponent` computes from the target component `t`. -/
def TickTargetTransform (w : TickWorld) (s : UVRPhysicsHandleComponent) (t : ObjId) :
    FTransform :=
  if s.grabOffset then
    let newLocation := (w.transformPositionNoScale (w.componentTransform t)
      s.targetOffset.Translation).add s.extraLocationOffset
    let t0 := s.targetTransform.SetLocation newLocation
    if s.updateTargetRotation then
      let newTargetRotation := w.transformRotation (w.componentTransform t)
        (w.quaternion ((w.rotator s.targetOffset.Rotation).add s.extraRotationOffset))
      t0.SetRotation newTargetRotation
    else t0
  else
    let newLocation := (w.componentTransform t).Translation.add s.extraLocationOffset
    let t0 := s.targetTransform.SetLocation newLocation
    if s.updateTargetRotation then
      let newTargetRotation := w.quaternion ((w.componentRotation t).add s.extraRotationOffset)
      t0.SetRotation newTargetRotation
    else t0

/-- The first part of `TickComponent`: follow the target component. -/
def TickFollowTarget (w : TickWorld) (s : UVRPhysicsHandleComponent) :
    Except Fault UVRPhysicsHandleComponent :=
  match s.targetComponent with
  | none => .ok s
  | some t =>
    if s.handleData.updateTargetLocation then
      let s1 := { s with targetTransform := TickTargetTransform w s t }
      if s1.reposition then UpdateRepositionCheck w s1 else .ok s1
    else .ok s

/-- The second part of `TickComponent`: interpolate or set the current transform. -/
def TickInterpolate (w : TickWorld) (DeltaTime : ℚ) (s : UVRPhysicsHandleComponent) :
    UVRPhysicsHandleComponent :=
  if s.handleData.interpolate = true ∧ s.teleported = false then
    let alpha := FMathClamp (DeltaTime * s.handleData.interpSpeed) 0 1
    let normalisedCurrent := w.normalizeRotation s.currentTransform
    let normalisedTarget := w.normalizeRotation s.targetTransform
    { s with currentTransform := w.blend normalisedCurrent normalisedTarget alpha }
  else
    let s1 := { s with currentTransform := s.targetTransform }
    if s1.teleported then { s1 with teleported := false } else s1

/-- The method `TickComponent`. -/
def TickComponent (w : TickWorld) (DeltaTime : ℚ) (s : UVRPhysicsHandleComponent) :
    Except Fault UVRPhysicsHandleComponent :=
  match TickFollowTarget w s with
  | .error e => .error e
  | .ok s1 =>
    let s2 := TickInterpolate w DeltaTime s1
    .ok (UpdateHandleTransform s2 s2.currentTransform)

end UVRPhysicsHandleComponent

/-! ## SlidableStaticMesh -/

/-- The enum `ESlideAxis`. -/
inductive ESlideAxis where
  | X
  | Y
  | Z
  deriving DecidableEq, Repr

/-- The coordinate of a vector on a slide axis. -/
def ESlideAxis.get : ESlideAxis → FVector → ℚ
  | .X, v => v.X
  | .Y, v => v.Y
  | .Z, v => v.Z

/-- The fields of `USlidableStaticMesh`; `relativeLocation` is the relative location of
the mesh component. -/
structure USlidableStaticMesh where
  handRef : Option ObjId
  currentAxis : ESlideAxis
  slideLimit : ℚ
  startLocation : ℚ
  centerLimit : Bool
  releaseOnLimit : Bool
  originalRelativeTransform : FTransform
  currentPosition : ℚ
  maxRelativeLoc : ℚ
  minRelativeLoc : ℚ
  interpolating : Bool
  interpolationSpeed : ℚ
  relativeInterpolationPos : ℚ
  relativeLocation : FVector
  deriving DecidableEq

namespace USlidableStaticMesh

/-- The method `UpdateConstraintBounds`. -/
def UpdateConstraintBounds (s : USlidableStaticMesh) : USlidableStaticMesh :=
  if s.centerLimit then
    let s1 := { s with maxRelativeLoc := |s.slideLimit| / 2 }
    { s1 with minRelativeLoc := s1.maxRelativeLoc * -1 }
  else
    if s.slideLimit < 0 then { s with maxRelativeLoc := 0, minRelativeLoc := s.slideLimit }
    else { s with maxRelativeLoc := s.slideLimit, minRelativeLoc := 0 }

/-- The method `ClampPosition`: the returned vector and the mesh afterwards.
`toParentRelative` is the inverse transform of the attach parent. -/
def ClampPosition (toParentRelative : FVector → FVector) (s : USlidableStaticMesh)
    (position : FVector) : FVector × USlidableStaticMesh :=
  let clampedPosition := s.originalRelativeTransform.Translation
  let relativePosition := toParentRelative position
  match s.currentAxis with
  | .X =>
    ({ clampedPosition with X := FMathClamp relativePosition.X s.minRelativeLoc s.maxRelativeLoc },
      { s with currentPosition := relativePosition.X })
  | .Y =>
    ({ clampedPosition with Y := FMathClamp relativePosition.Y s.minRelativeLoc s.maxRelativeLoc },
      { s with currentPosition := relativePosition.Y })
  | .Z =>
    ({ clampedPosition with Z := FMathClamp relativePosition.Z s.minRelativeLoc s.maxRelativeLoc },
      { s with currentPosition := relativePosition.Z })

/-- The method `Released_Implementation`, as far as the slidable fields go. -/
def Released (s : USlidableStaticMesh) : USlidableStaticMesh :=
  { s with interpolating := false, handRef := none }

/-- The method `SetSlidablePosition`.  Releasing the grabbing hand runs
`Released_Implementation` on the slidable it holds. -/
def SetSlidablePosition (s : USlidableStaticMesh) (positionAlongAxis : ℚ) (interpolate : Bool)
    (interpSpeed : ℚ) : USlidableStaticMesh :=
  let validPosition : Bool :=
    decide (positionAlongAxis < s.minRelativeLoc) && decide (positionAlongAxis > s.maxRelativeLoc)
  if validPosition then s
  else
    let s1 := if s.handRef.isSome then s.Released else s
    if interpolate then
      { s1 with
        interpolationSpeed := interpSpeed
        relativeInterpolationPos := positionAlongAxis
        interpolating := true }
    else
      let newRelativeLocation := s1.originalRelativeTransform.Translation
      match s1.currentAxis with
      | .X => { s1 with relativeLocation := { newRelativeLocation with X := positionAlongAxis } }
      | .Y => { s1 with relativeLocation := { newRelativeLocation with Y := positionAlongAxis } }
      | .Z => { s1 with relativeLocation := { newRelativeLocation with Z := positionAlongAxis } }

end USlidableStaticMesh

/-! ## ButtonStaticMesh -/

/-- The enum `EButtonMode`. -/
inductive EButtonMode where
  | Default
  | Toggle
  | KeepPosition
  | SingleUse
  deriving DecidableEq, Repr

/-- The engine enum `ECollisionEnabled`. -/
inductive ECollisionEnabled where
  | NoCollision
  | QueryOnly
  | PhysicsOnly
  | QueryAndPhysics
  deriving DecidableEq, Repr

/-- What the shape trace and the engine transforms give in one `UpdateButtonPosition`. -/
structure ButtonFrame where
  /-- The flag `buttonHit.bBlockingHit`. -/
  bBlockingHit : Bool
  /-- The value `impactOffset.Z`: the impact point in the space of the button. -/
  impactOffsetZ : ℚ
  /-- The vector `relativeButtonPosition` computed from the hit location. -/
  relativeButtonPosition : FVector
  /-- The value `offsetRel.Z`: minus the depth the button is pressed to. -/
  offsetRelZ : ℚ
  /-- Does the hit actor lead to a hand that can play feedback. -/
  hitHand : Bool

/-- The fields of `UButtonStaticMesh`.  The field `on` of the source is `on_` here, since
`on` is reserved; `pressedBroadcasts` lists the values sent to the `Pressed` delegate and
`feedbackRequests` counts the `PlayFeedback` calls made on a hand. -/
structure UButtonStaticMesh where
  buttonMode : EButtonMode
  travelDistance : ℚ
  onPercentage : ℚ
  hapticFeedbackEnabled : Bool
  on_ : Bool
  locked : Bool
  cannotPress : Bool
  startRelativeLocation : FVector
  lerpRelativeLocation : FVector
  endPositionRel : FVector
  startPositionRel : FVector
  onPositionRel : FVector
  endTraceToUse : FVector
  onDistance : ℚ
  keepingPos : Bool
  interpToPosition : Bool
  alreadyToggled : Bool
  relativeLocation : FVector
  collisionEnabled : ECollisionEnabled
  pressedBroadcasts : List Bool
  feedbackRequests : Nat
  deriving DecidableEq

namespace UButtonStaticMesh

/-- The part of `BeginPlay` that does not depend on the mesh bounds. -/
def BeginPlay (s : UButtonStaticMesh) : UButtonStaticMesh :=
  { s with
    onDistance := s.travelDistance * s.onPercentage
    lerpRelativeLocation := s.startRelativeLocation
    endTraceToUse := s.startPositionRel }

/-- The method `UpdateButton`. -/
def UpdateButton (s : UButtonStaticMesh) (hitHand : Bool) (isOn : Bool) : UButtonStaticMesh :=
  let s1 := if isOn then { s with on_ := true } else { s with on_ := false }
  let s2 := if s1.hapticFeedbackEnabled ∧ hitHand then
    { s1 with feedbackRequests := s1.feedbackRequests + 1 } else s1
  let s3 := { s2 with pressedBroadcasts := s2.pressedBroadcasts ++ [s2.on_] }
  { s3 with keepingPos := true, alreadyToggled := true }

/-- The switch on `buttonMode` inside `UpdateButtonPosition`. -/
def UpdateButtonMode (removeRelativeOffset : FVector → FVector) (f : ButtonFrame)
    (s : UButtonStaticMesh) (result : Bool) : UButtonStaticMesh :=
  match s.buttonMode with
  | .Default => if s.on_ ≠ result then s.UpdateButton f.hitHand result else s
  | .Toggle =>
    if !s.alreadyToggled ∧ result then s.UpdateButton f.hitHand (!s.on_) else s
  | .KeepPosition =>
    if result then
      if !s.keepingPos then
        if !s.on_ then
          { s.UpdateButton f.hitHand true with
            lerpRelativeLocation := removeRelativeOffset s.onPositionRel
            endTraceToUse := s.onPositionRel }
        else
          { s.UpdateButton f.hitHand false with
            lerpRelativeLocation := s.startRelativeLocation
            endTraceToUse := s.startPositionRel }
      else s
    else if s.keepingPos then { s with keepingPos := false } else s
  | .SingleUse =>
    if result = true ∧ !s.on_ then
      { s.UpdateButton f.hitHand true with
        locked := true
        lerpRelativeLocation := s.startRelativeLocation
        endTraceToUse := s.onPositionRel }
    else s

/-- The end of the hit branch of `UpdateButtonPosition`: physics collision is only enabled
while the button is fully down. -/
def UpdateButtonCollision (s : UButtonStaticMesh) (fullyDown : Bool) : UButtonStaticMesh :=
  if fullyDown ∧ s.collisionEnabled = ECollisionEnabled.QueryOnly then
    { s with collisionEnabled := ECollisionEnabled.QueryAndPhysics }
  else if s.collisionEnabled = ECollisionEnabled.QueryAndPhysics then
    { s with collisionEnabled := ECollisionEnabled.QueryOnly }
  else s

/-- The start of the hit branch of `UpdateButtonPosition`: move the button to the hit and
stop interpolating. -/
def MoveButtonToHit (f : ButtonFrame) (s : UButtonStaticMesh) : UButtonStaticMesh :=
  let s1 := { s with relativeLocation := f.relativeButtonPosition }
  if s1.interpToPosition then { s1 with interpToPosition := false } else s1

/-- The method `UpdateButtonPosition`. -/
def UpdateButtonPosition (removeRelativeOffset : FVector → FVector) (f : ButtonFrame)
    (s : UButtonStaticMesh) : UButtonStaticMesh :=
  if f.bBlockingHit ∧ !s.cannotPress then
    if f.impactOffsetZ > 0 then
      let s2 := MoveButtonToHit f s
      let result : Bool := decide (f.offsetRelZ ≤ -s2.onDistance)
      let s3 := UpdateButtonMode removeRelativeOffset f s2 result
      let fullyDown : Bool := decide (f.offsetRelZ ≤ -s3.travelDistance)
      UpdateButtonCollision s3 fullyDown
    else s
  else
    let s1 := if s.buttonMode = EButtonMode.Default ∧ s.on_ then s.UpdateButton f.hitHand false
      else s
    { s1 with interpToPosition := true, keepingPos := false, alreadyToggled := false }

/-- The value of `on` after each of a sequence of `UpdateButtonPosition` steps. -/
def onTrace (removeRelativeOffset : FVector → FVector) (s : UButtonStaticMesh) :
    List ButtonFrame → List Bool
  | [] => []
  | f :: fs =>
    (UpdateButtonPosition removeRelativeOffset f s).on_ ::
      onTrace removeRelativeOffset (UpdateButtonPosition removeRelativeOffset f s) fs

/-- How many times a value changes along a trace that starts from `previous`. -/
def changes (previous : Bool) : List Bool → Nat
  | [] => 0
  | b :: bs => (if b = previous then 0 else 1) + changes b bs

/-- The step presses the button to the on distance `d` or deeper, hit from above. -/
def reachesOn (d : ℚ) (f : ButtonFrame) : Bool :=
  decide (f.impactOffsetZ > 0) && decide (f.offsetRelZ ≤ -d)

end UButtonStaticMesh

/-! ## InteractionInterface -/

/-- The struct `FInterfaceSettings`. -/
structure FInterfaceSettings where
  physicsData : FPhysicsHandleData
  releaseDistance : ℚ
  rumbleDistance : ℚ
  handDistance : ℚ
  hightlightInteractable : Bool
  twoHandedGrabbing : Bool
  active : Bool
  deriving DecidableEq

/-- The constructor `FInterfaceSettings()` with its default arguments. -/
def FInterfaceSettings.default : FInterfaceSettings where
  physicsData := FPhysicsHandleData.default
  releaseDistance := 50
  rumbleDistance := 1
  handDistance := 0
  hightlightInteractable := true
  twoHandedGrabbing := false
  active := true

/-- A component of an actor: its identity, whether it is a `UPrimitiveComponent` and
whether it carries the tag "Grabbable". -/
structure ActorComponent where
  id : ObjId
  isPrimitive : Bool
  grabbableTag : Bool
  deriving DecidableEq

/-- The object `_getUObject()` returns for a class that implements the interface. -/
inductive InterfaceObject where
  | actor (hasGrabbableTag : Bool) (components : List ActorComponent)
  | primitiveComponent (id : ObjId)
  | other

/-- The custom depth settings of a primitive component. -/
structure RenderDepth where
  bRenderCustomDepth : Bool
  CustomDepthStencilValue : Nat
  deriving DecidableEq

/-- The private fields of `IInteractionInterface`, with the custom depth settings of the
components of the world. -/
structure IInteractionInterface where
  overlapping : Bool
  overlappingHands : List ObjId
  foundChildren : List ActorComponent
  foundComponents : List ObjId
  renderDepth : ObjId → RenderDepth

namespace IInteractionInterface

/-- The children `Overlapping_Implementation` collects for an object into `foundChildren`,
and whether it then loops over them. -/
def collectChildren (foundChildren : List ActorComponent) :
    InterfaceObject → List ActorComponent × Bool
  | .actor hasGrabbableTag components =>
    (if hasGrabbableTag then components
      else components.filter (fun c => c.isPrimitive && c.grabbableTag), true)
  | .primitiveComponent id => (foundChildren ++ [⟨id, true, false⟩], true)
  | .other => (foundChildren, false)

/-- The method `Overlapping_Implementation`. -/
def Overlapping_Implementation (objectClass : Option InterfaceObject)
    (currentSettings : FInterfaceSettings) (s : IInteractionInterface) (hand : ObjId) :
    IInteractionInterface :=
  let s1 := { s with overlappingHands := s.overlappingHands ++ [hand] }
  match objectClass with
  | none => s1
  | some o =>
    if !s1.overlapping ∧ currentSettings.hightlightInteractable then
      let found := collectChildren s1.foundChildren o
      let s2 := { s1 with foundChildren := found.1 }
      if found.2 ∧ s2.foundChildren.length > 0 then
        let primComps := (s2.foundChildren.filter (fun c => c.isPrimitive)).map (fun c => c.id)
        { s2 with
          renderDepth := fun c => if c ∈ primComps then ⟨true, 2⟩ else s2.renderDepth c
          foundComponents := s2.foundComponents ++ primComps
          foundChildren := []
          overlapping := true }
      else s2
    else s1

/-- The method `EndOverlapping_Implementation`; `TArray::Remove` removes every entry equal
to the hand. -/
def EndOverlapping_Implementation (objectClass : Option InterfaceObject)
    (currentSettings : FInterfaceSettings) (s : IInteractionInterface) (hand : ObjId) :
    IInteractionInterface :=
  let s1 := { s with overlappingHands := s.overlappingHands.filter (fun h => h ≠ hand) }
  match objectClass with
  | none => s1
  | some _ =>
    if s1.overlappingHands.length = 0 ∧ currentSettings.hightlightInteractable then
      if s1.foundComponents.length > 0 then
        { s1 with
          renderDepth := fun c =>
            if c ∈ s1.foundComponents ∧ (s1.renderDepth c).bRenderCustomDepth then ⟨false, 0⟩
            else s1.renderDepth c
          foundComponents := []
          overlapping := false }
      else s1
    else s1

/-- The overlap events a hand sends to an interactable. -/
inductive OverlapCall where
  | Overlapping (hand : ObjId)
  | EndOverlapping (hand : ObjId)

/-- Run one overlap event. -/
def OverlapCall.run (objectClass : Option InterfaceObject) (currentSettings : FInterfaceSettings)
    (s : IInteractionInterface) : OverlapCall → IInteractionInterface
  | .Overlapping hand => Overlapping_Implementation objectClass currentSettings s hand
  | .EndOverlapping hand => EndOverlapping_Implementation objectClass currentSettings s hand

/-- Run a sequence of overlap events, first to last. -/
def runOverlaps (objectClass : Option InterfaceObject) (currentSettings : FInterfaceSettings)
    (s : IInteractionInterface) (calls : List OverlapCall) : IInteractionInterface :=
  calls.foldl (OverlapCall.run objectClass currentSettings) s

/-- The interface of an interactable no hand has touched yet. -/
def fresh (renderDepth : ObjId → RenderDepth) : IInteractionInterface :=
  ⟨false, [], [], [], renderDepth⟩

/-- The primitive components `Overlapping_Implementation` highlights for an object. -/
def highlightTargets : InterfaceObject → List ObjId
  | .actor hasGrabbableTag components =>
    ((if hasGrabbableTag then components
      else components.filter (fun c => c.isPrimitive && c.grabbableTag)).filter
        (fun c => c.isPrimitive)).map (fun c => c.id)
  | .primitiveComponent id => [id]
  | .other => []

/-- The found components are highlighted. -/
def Highlighted (s : IInteractionInterface) : Prop :=
  s.overlapping = true ∧ s.foundComponents ≠ [] ∧
    ∀ c ∈ s.foundComponents, s.renderDepth c = ⟨true, 2⟩

/-- What holds between overlap events on an interactable with something to highlight. -/
def HighlightInvariant (s : IInteractionInterface) : Prop :=
  (s.overlapping = true ↔ s.foundComponents ≠ []) ∧
  (∀ c ∈ s.foundComponents, s.renderDepth c = ⟨true, 2⟩) ∧
  (s.overlappingHands ≠ [] → s.overlapping = true) ∧
  s.foundChildren = []

end IInteractionInterface

/-! ## RotatableStaticMesh: locking -/

/-- The engine constant `BIG_NUMBER` (3.4e+38). -/
def BIG_NUMBER : ℚ := 34 * 10 ^ 37

/-- The rotatable together with the fields its locking code works on. -/
structure URotatableLocking extends URotatableStaticMesh where
  lockWhileGrabbed : Bool
  lockingDistance : ℚ
  unlockingDistance : ℚ
  lockingPoints : List ℚ
  lastUnlockAngle : ℚ
  lastCheckedRotation : ℚ
  currentLockedRotation : ℚ

namespace URotatableLocking

/-- The method `InRange`. -/
def InRange (Value Min Max : ℚ) (InclusiveMin InclusiveMax : Bool) : Bool :=
  (if InclusiveMin then decide (Value ≥ Min) else decide (Value > Min)) &&
    (if InclusiveMax then decide (Value ≤ Max) else decide (Value < Max))

/-- The test `hasPassedLock` of `UpdateRotatableLock`: the point lies between the last
checked rotation and the cumulative angle. -/
def hasPassedLock (s : URotatableLocking) (point : ℚ) : Bool :=
  if s.lastCheckedRotation < s.cumulativeAngle then
    InRange point s.lastCheckedRotation s.cumulativeAngle true true
  else InRange point s.cumulativeAngle s.lastCheckedRotation true true

/-- One round of the loop of `UpdateRotatableLock` over `closestRotationFound` and
`pointFound`. -/
def lockScan (s : URotatableLocking) (found : ℚ × Bool) (point : ℚ) : ℚ × Bool :=
  if s.hasPassedLock point ∧ point < found.1 then (point, true) else found

/-- The method `Unlock`. -/
def Unlock (s : URotatableLocking) : URotatableLocking :=
  if s.lockable ∧ s.locked then
    let s1 := if !s.grabWhileLocked then { s with interactableActive := true } else s
    { s1 with lastUnlockAngle := s1.cumulativeAngle, locked := false }
  else s

/-- The method `UpdateRotatableLock`. -/
def UpdateRotatableLock (s : URotatableLocking) : URotatableLocking :=
  if s.handRef.isSome ∧ !s.lockWhileGrabbed then s
  else if s.cannotLock then
    if !IsNearlyEqual s.cumulativeAngle s.lastUnlockAngle s.unlockingDistance
        || s.handRef.isNone then
      { s with cannotLock := false, lastCheckedRotation := s.cumulativeAngle }
    else s
  else
    let found := s.lockingPoints.foldl s.lockScan (BIG_NUMBER, false)
    let s1 : URotatableLocking :=
      if found.2 then
        { s with
          toURotatableStaticMesh := s.toURotatableStaticMesh.Lock found.1
          currentLockedRotation := found.1 }
      else s
    { s1 with lastCheckedRotation := s1.cumulativeAngle }

end URotatableLocking

/-! ## VRHand: the calls that write the grab state -/

/-- One component the grab collider overlaps, as `CheckForOverlappingActors` reads it. -/
structure OverlappingComponent where
  /-- What `LookForInterface(comp)` returns. -/
  objectWithInterface : Option ObjId
  /-- The flag `active` of the interface settings of that object. -/
  active : Bool
  /-- The distance between the component and the grab collider. -/
  currentDistance : ℚ

namespace AVRHand

/-- One round of the loop of `CheckForOverlappingActors`, over `objectToGrab`, `toGrab` and
`smallestDistance`. -/
def overlapScan (acc : Option ObjId × Option ObjId × ℚ) (comp : OverlappingComponent) :
    Option ObjId × Option ObjId × ℚ :=
  match comp.objectWithInterface with
  | none => acc
  | some o =>
    if !comp.active then (none, acc.2.1, acc.2.2)
    else if comp.currentDistance < acc.2.2 then (acc.1, some o, comp.currentDistance)
    else acc

/-- The method `CheckForOverlappingActors`; the overlap events it sends to the objects are
not part of the hand state. -/
def CheckForOverlappingActors (h : AVRHand) (overlapping : List OverlappingComponent) :
    AVRHand :=
  let scanned := overlapping.foldl overlapScan (h.objectToGrab, none, 100000)
  let h1 := { h with objectToGrab := scanned.1 }
  let toGrab := scanned.2.1
  if h1.objectToGrab ≠ toGrab then
    let h2 := if h1.objectToGrab.isSome then { h1 with objectToGrab := none } else h1
    match toGrab with
    | some t => { h2 with objectToGrab := some t }
    | none => h2
  else h1

/-- The grab state as the constructor of the hand leaves it: `objectToGrab` and
`objectInHand` null, `grabbing` false.  The other fields are those of `h`. -/
def constructedGrabState (h : AVRHand) : AVRHand :=
  { h with objectToGrab := none, objectInHand := none, grabbing := false }

end AVRHand

/-- The calls that write `grabbing`, `objectInHand` or `objectToGrab` of a hand: its own
methods, called by the player, by the tick of the hand, by the other hand and by the
interactables, and `PlayFeedback`, which `Grab` and the tick call.  `OtherFieldsChanged`
stands for everything else that happens to a hand (setup, configuration, the engine
changing the haptic slots of the controller, the other methods of the hand): the fields
become those of `setup`, except the three fields of the grab state, which only the
methods above write. -/
inductive HandCall where
  | Grab
  | ForceGrab (objectToForceGrab : Option ObjId)
  | Drop
  | ReleaseGrabbedActor
  | CheckForOverlappingActors (overlapping : List OverlappingComponent)
  | PlayFeedback (feedback : Option ObjId) (intensity : ℚ) (replace : Bool)
  | OtherFieldsChanged (setup : AVRHand)

/-- Run one call on the hand `p.self`. -/
def HandCall.run (twoHandedGrabbing : ObjId → Bool) (p : HandPair) :
    HandCall → Except Fault HandPair
  | .Grab => AVRHand.Grab twoHandedGrabbing p
  | .ForceGrab o => AVRHand.ForceGrab twoHandedGrabbing p o
  | .Drop => .ok { p with self := p.self.Drop }
  | .ReleaseGrabbedActor => .ok { p with self := p.self.ReleaseGrabbedActor }
  | .CheckForOverlappingActors overlapping =>
    .ok { p with self := p.self.CheckForOverlappingActors overlapping }
  | .PlayFeedback f i r =>
    match p.self.PlayFeedback f i r with
    | .error e => .error e
    | .ok (_, h, _) => .ok { p with self := h }
  | .OtherFieldsChanged setup =>
    .ok { p with self :=
      { setup with
        objectToGrab := p.self.objectToGrab
        objectInHand := p.self.objectInHand
        grabbing := p.self.grabbing } }

/-- A call on one of the two hands of the player. -/
structure HandEvent where
  onOtherHand : Bool
  call : HandCall

/-- Run one event.  A call on the other hand sees this hand as its `otherHand`. -/
def HandEvent.run (twoHandedGrabbing : ObjId → Bool) (p : HandPair) (e : HandEvent) :
    Except Fault HandPair :=
  if e.onOtherHand then
    match p.otherHand with
    | none => .ok p
    | some oh =>
      match e.call.run twoHandedGrabbing ⟨oh, some p.self⟩ with
      | .error err => .error err
      | .ok q => .ok ⟨q.otherHand.getD p.self, some q.self⟩
  else e.call.run twoHandedGrabbing p

/-- Run a sequence of events, first to last, stopping at the first fault. -/
def runHandEvents (twoHandedGrabbing : ObjId → Bool) (p : HandPair) :
    List HandEvent → Except Fault HandPair
  | [] => .ok p
  | e :: rest =>
    match e.run twoHandedGrabbing p with
    | .error err => .error err
    | .ok q => runHandEvents twoHandedGrabbing q rest

/-! ## Concrete objects used to evaluate the code -/

/-- An effects container without any entry. -/
def UEffectsContainer.empty : UEffectsContainer := ⟨[], [], []⟩

/-- An effects container holding a default feedback effect and a null entry. -/
def UEffectsContainer.sample : UEffectsContainer :=
  ⟨[("Default", some 40), ("Missing", none)], [("Sparks", some 41)], [("Click", some 42)]⟩

/-- The hand as its constructor leaves it, owned by the given controller. -/
def AVRHand.constructed (side : EControllerHand) (controller : Option APlayerController) :
    AVRHand where
  handEnum := side
  owningController := controller
  pawnEffects := some UEffectsContainer.sample
  currentHapticIntesity := 0
  objectToGrab := none
  objectInHand := none
  grabbing := false
  hideOnGrab := true
  handSkelVisible := true
  collisionEnabled := false

/-- The movement actor as its constructor leaves it, set up for a player. -/
def AVRMovement.constructed : AVRMovement where
  player := some 1
  playerController := some 2
  currentMovementMode := EVRMovementMode.Teleport
  currentMovingHand := none
  firstMove := true
  requiresNavMesh := true
  teleportFade := true
  teleportDeadzone := 4 / 10
  lastTeleportValid := false
  teleporting := false
  lastValidTeleportLocation := FVector.zero
  teleportRotation := FRotator.ZeroRotator
  splineMeshes := 0
  teleportSplineEndMeshVisible := false
  teleportRingVisible := false
  teleportArrowVisible := false
  teleportMaterialsValid := false
  teleportTimer := false
  cameraFades := 0
  playerMoves := []

/-- A preview frame: the hand points forward and the arc lands on the nav-mesh. -/
def TeleportFrame.landing : TeleportFrame where
  handForwardZ := 0
  pathPositions := 5
  blockingHit := some ⟨300, 0, 1⟩
  navSystem := true
  foundLocation := some ⟨300, 0, 0⟩
  navMeshHeightError := none
  thumbOffsetSize := 0
  thumbRotation := FRotator.ZeroRotator
  cameraYaw := 0

/-- A preview frame: the hand points straight up, which cancels the preview. -/
def TeleportFrame.pointingUp : TeleportFrame where
  handForwardZ := 1
  pathPositions := 0
  blockingHit := none
  navSystem := true
  foundLocation := none
  navMeshHeightError := none
  thumbOffsetSize := 0
  thumbRotation := FRotator.ZeroRotator
  cameraYaw := 0

/-- The rotatable as its constructor leaves it: no rotation limit. -/
def URotatableStaticMesh.constructed : URotatableStaticMesh where
  handRef := none
  grabMode := EGrabMode.Static
  rotateAxis := ERotateAxis.Yaw
  fakePhysics := true
  lockOnlyUpdate := false
  rotationLimit := 0
  centerRotationLimit := false
  cumulativeAngle := 0
  actualCumulativeAngle := 0
  currentAngleChange := 0
  angleChangeOnRelease := 0
  rotationAlpha := 0
  firstRun := true
  lockable := false
  locked := false
  grabWhileLocked := true
  cannotLock := false
  releaseWhenLocked := true
  interpolating := true
  lockOnTimelineEnd := false
  rotationUpdateCurve := false
  timelinePlaying := false
  timelineStartRotation := 0
  timelineEndRotation := 0
  interactableActive := true
  relativeRotation := FRotator.ZeroRotator

/-- The transform of every component in the simple tick world. -/
def movedTransformTick : FTransform := ⟨FQuat.identity, ⟨3, 0, 0⟩, ⟨1, 1, 1⟩⟩

/-- A tick world with trivial transform arithmetic and a free reposition target. -/
def TickWorld.simple : TickWorld where
  componentTransform := fun _ => movedTransformTick
  componentRotation := fun _ => FRotator.ZeroRotator
  transformPositionNoScale := fun t v => t.Translation.add v
  transformRotation := fun _ q => q
  quaternion := fun _ => FQuat.identity
  rotator := fun _ => FRotator.ZeroRotator
  size := fun v => |v.X| + |v.Y| + |v.Z|
  overlapping := false
  normalizeRotation := fun t => t
  blend := fun a _ _ => a

/-- A handle that follows component 2 with component 1 grabbed, just teleported. -/
def UVRPhysicsHandleComponent.following : UVRPhysicsHandleComponent :=
  { UVRPhysicsHandleComponent.constructed with
    grabbedComponent := some 1
    targetComponent := some 2
    reposition := true
    teleported := true }

/-- A handle whose joint was destroyed after following component 2, with repositioning on. -/
def UVRPhysicsHandleComponent.released : UVRPhysicsHandleComponent :=
  { UVRPhysicsHandleComponent.constructed with
    grabbedComponent := none
    targetComponent := some 2
    reposition := true }

/-- A handle with repositioning switched on, as the hand sets up the handle of its physics
collider (`handHandle->reposition = true`), after `BeginPlay`. -/
def UVRPhysicsHandleComponent.repositioning : UVRPhysicsHandleComponent :=
  UVRPhysicsHandleComponent.BeginPlay
    { UVRPhysicsHandleComponent.constructed with reposition := true }

/-- The slidable as its constructor leaves it (slide limit 10 on X), with its bounds
computed and a hand grabbing it. -/
def USlidableStaticMesh.grabbed : USlidableStaticMesh :=
  USlidableStaticMesh.UpdateConstraintBounds
    { handRef := some 5
      currentAxis := ESlideAxis.X
      slideLimit := 10
      startLocation := 0
      centerLimit := false
      releaseOnLimit := false
      originalRelativeTransform := FTransform.identity
      currentPosition := 0
      maxRelativeLoc := 0
      minRelativeLoc := 0
      interpolating := false
      interpolationSpeed := 5
      relativeInterpolationPos := 0
      relativeLocation := FVector.zero }

/-- The button as its constructor leaves it, in Toggle mode, after `BeginPlay`. -/
def UButtonStaticMesh.toggleButton : UButtonStaticMesh :=
  UButtonStaticMesh.BeginPlay
    { buttonMode := EButtonMode.Toggle
      travelDistance := 4
      onPercentage := 8 / 10
      hapticFeedbackEnabled := true
      on_ := false
      locked := false
      cannotPress := false
      startRelativeLocation := FVector.zero
      lerpRelativeLocation := FVector.zero
      endPositionRel := ⟨0, 0, -3⟩
      startPositionRel := ⟨0, 0, 1⟩
      onPositionRel := ⟨0, 0, -11 / 5⟩
      endTraceToUse := FVector.zero
      onDistance := 0
      keepingPos := false
      interpToPosition := false
      alreadyToggled := false
      relativeLocation := FVector.zero
      collisionEnabled := ECollisionEnabled.QueryOnly
      pressedBroadcasts := []
      feedbackRequests := 0 }

/-- A hit from above that presses the button to the given depth. -/
def ButtonFrame.pressedTo (depth : ℚ) : ButtonFrame where
  bBlockingHit := true
  impactOffsetZ := 1
  relativeButtonPosition := ⟨0, 0, -depth⟩
  offsetRelZ := -depth
  hitHand := true

/-- One continuous press: down past the on distance (3.2), to the end, and back up a bit. -/
def ButtonFrame.onePress : List ButtonFrame :=
  [ButtonFrame.pressedTo 1, ButtonFrame.pressedTo (7 / 2), ButtonFrame.pressedTo 4,
   ButtonFrame.pressedTo 2, ButtonFrame.pressedTo (7 / 2)]

/-- A lockable rotatable resting one degree short of its locking point at 90, last checked
at 80, with the default locking distance of 2. -/
def URotatableLocking.nearLockingPoint : URotatableLocking where
  toURotatableStaticMesh :=
    { URotatableStaticMesh.constructed with
      lockable := true
      rotationLimit := 180
      cumulativeAngle := 89
      actualCumulativeAngle := 89 }
  lockWhileGrabbed := true
  lockingDistance := 2
  unlockingDistance := 1
  lockingPoints := [90]
  lastUnlockAngle := 0
  lastCheckedRotation := 80
  currentLockedRotation := 0

/-! ## Theorems: VRPhysicsHandleComponent -/

namespace UVRPhysicsHandleComponent

theorem ReinitJoint_handleData (s : UVRPhysicsHandleComponent) :
    (ReinitJoint s).handleData = s.handleData := by
  unfold ReinitJoint
  cases s.joint <;> rfl

theorem ReinitJoint_originalData (s : UVRPhysicsHandleComponent) :
    (ReinitJoint s).originalData = s.originalData := by
  unfold ReinitJoint
  cases s.joint <;> rfl

theorem JointCall_run_originalData (s : UVRPhysicsHandleComponent) (c : JointCall) :
    (c.run s).originalData = s.originalData := by
  cases c <;> simp [JointCall.run, UpdateJointValues, ToggleDrive, ReinitJoint_originalData]

theorem runCalls_originalData (calls : List JointCall) (s : UVRPhysicsHandleComponent) :
    (runCalls s calls).originalData = s.originalData := by
  induction calls generalizing s with
  | nil => rfl
  | cons c cs ih =>
    show (runCalls (c.run s) cs).originalData = s.originalData
    rw [ih, JointCall_run_originalData]

theorem UpdateHandleTransform_targetTransform (s : UVRPhysicsHandleComponent) (t : FTransform) :
    (UpdateHandleTransform s t).targetTransform = s.targetTransform := by
  unfold UpdateHandleTransform
  cases s.targetActor with
  | none => rfl
  | some a => dsimp only; split <;> rfl

theorem UpdateHandleTransform_currentTransform (s : UVRPhysicsHandleComponent)
    (t : FTransform) :
    (UpdateHandleTransform s t).currentTransform = s.currentTransform := by
  unfold UpdateHandleTransform
  cases s.targetActor with
  | none => rfl
  | some a => dsimp only; split <;> rfl

/-- C1 (what the code does): whenever the grabbed component has a physics body, the
overload of `CreateJointAndFollowLocation` without a target does not complete: `CreateJoint`
reads the transform of the null target for `grabbedOffset` before it tests the target. -/
theorem CreateJointAndFollowLocation_reads_null_target (w : JointWorld)
    (s : UVRPhysicsHandleComponent) (comp : ObjId) (boneName : FName)
    (jointLocation : FVector) (interactableData : FPhysicsHandleData)
    (hbody : w.hasBodyInstance comp boneName = true) :
    CreateJointAndFollowLocation w s (some comp) boneName jointLocation interactableData
      = .error Fault.nullDeref := by
  simp [CreateJointAndFollowLocation, CreateJoint, hbody]

theorem CreateJointAndFollowLocation_reads_null_target_witness :
    simpleWorld.hasBodyInstance 1 "None" = true ∧
    CreateJointAndFollowLocation simpleWorld constructed (some 1) "None" ⟨10, 0, 0⟩
      FPhysicsHandleData.default = .error Fault.nullDeref :=
  ⟨rfl, CreateJointAndFollowLocation_reads_null_target simpleWorld constructed 1 "None"
    ⟨10, 0, 0⟩ FPhysicsHandleData.default rfl⟩

/-- C2: for a handle that has a joint, after `ReinitJoint` the three linear axes are free
when `softLinearConstraint` is set and locked otherwise, the three angular axes are locked
exactly when `rotationConstraint` is set and `softAngularConstraint` is not, and free
otherwise, and the X, Y and Z drives carry the linear stiffness, damping and force limit
when `softLinearConstraint` is set and are zero drives otherwise. -/
theorem ReinitJoint_motions_and_drives (s : UVRPhysicsHandleComponent) (j : PxD6Joint)
    (hj : s.joint = some j) :
    ∃ j', (ReinitJoint s).joint = some j' ∧
      (j'.motionX = j'.motionY ∧ j'.motionY = j'.motionZ) ∧
      (s.handleData.softLinearConstraint = true → j'.motionX = PxD6Motion.eFREE) ∧
      (s.handleData.softLinearConstraint = false → j'.motionX = PxD6Motion.eLOCKED) ∧
      (j'.motionTWIST = j'.motionSWING1 ∧ j'.motionSWING1 = j'.motionSWING2) ∧
      (j'.motionTWIST = PxD6Motion.eLOCKED ↔
        (s.rotationConstraint = true ∧ s.handleData.softAngularConstraint = false)) ∧
      (j'.motionTWIST = PxD6Motion.eFREE ↔
        ¬ (s.rotationConstraint = true ∧ s.handleData.softAngularConstraint = false)) ∧
      (j'.driveX = j'.driveY ∧ j'.driveY = j'.driveZ) ∧
      (s.handleData.softLinearConstraint = true →
        j'.driveX = ⟨s.handleData.linearStiffness, s.handleData.linearDamping,
          s.handleData.maxLinearForce, true⟩) ∧
      (s.handleData.softLinearConstraint = false → j'.driveX = ⟨0, 0, 0, false⟩) := by
  unfold ReinitJoint
  rw [hj]
  refine ⟨_, rfl, ?_⟩
  cases hl : s.handleData.softLinearConstraint <;> cases ha : s.handleData.softAngularConstraint
    <;> cases hr : s.rotationConstraint <;> simp

theorem ReinitJoint_motions_and_drives_witness :
    ∃ j', (ReinitJoint { constructed with joint := some PxD6Joint.created }).joint = some j' ∧
      (j'.motionX = j'.motionY ∧ j'.motionY = j'.motionZ) ∧
      (constructed.handleData.softLinearConstraint = true → j'.motionX = PxD6Motion.eFREE) ∧
      (constructed.handleData.softLinearConstraint = false →
        j'.motionX = PxD6Motion.eLOCKED) ∧
      (j'.motionTWIST = j'.motionSWING1 ∧ j'.motionSWING1 = j'.motionSWING2) ∧
      (j'.motionTWIST = PxD6Motion.eLOCKED ↔
        (constructed.rotationConstraint = true ∧
          constructed.handleData.softAngularConstraint = false)) ∧
      (j'.motionTWIST = PxD6Motion.eFREE ↔
        ¬ (constructed.rotationConstraint = true ∧
          constructed.handleData.softAngularConstraint = false)) ∧
      (j'.driveX = j'.driveY ∧ j'.driveY = j'.driveZ) ∧
      (constructed.handleData.softLinearConstraint = true →
        j'.driveX = ⟨constructed.handleData.linearStiffness,
          constructed.handleData.linearDamping, constructed.handleData.maxLinearForce, true⟩) ∧
      (constructed.handleData.softLinearConstraint = false → j'.driveX = ⟨0, 0, 0, false⟩) :=
  ReinitJoint_motions_and_drives { constructed with joint := some PxD6Joint.created }
    PxD6Joint.created rfl

/-- C3: once `BeginPlay` has saved `originalData`, after any sequence of
`UpdateJointValues` and `ToggleDrive` calls a following `ResetJoint` leaves `handleData`
equal to the value it had at `BeginPlay`. -/
theorem ResetJoint_restores_BeginPlay_data (s : UVRPhysicsHandleComponent)
    (calls : List JointCall) :
    (ResetJoint (runCalls (BeginPlay s) calls)).handleData = s.handleData := by
  simp [ResetJoint, UpdateJointValues, ReinitJoint_handleData, runCalls_originalData, BeginPlay]

/-- C4: `SetTarget` is rejected while the target is updated automatically.  When
`updateTargetLocation` is set the component is left as it was (so `targetTransform` and
`currentTransform` are unchanged); when it is not set, `targetTransform` becomes the given
transform and `currentTransform` becomes it exactly when `updateTransformInstantly` is set
(it keeps its value otherwise).  Hence a transform other than the old target becomes the
target if and only if `updateTargetLocation` is not set. -/
theorem SetTarget_rejected_iff_updateTargetLocation (s : UVRPhysicsHandleComponent)
    (t : FTransform) (updateTransformInstantly : Bool) :
    (s.handleData.updateTargetLocation = true →
      SetTarget s t updateTransformInstantly = s) ∧
    (s.handleData.updateTargetLocation = false →
      (SetTarget s t updateTransformInstantly).targetTransform = t ∧
      (SetTarget s t updateTransformInstantly).currentTransform =
        (if updateTransformInstantly then t else s.currentTransform)) ∧
    (t ≠ s.targetTransform →
      ((SetTarget s t updateTransformInstantly).targetTransform = t ↔
        s.handleData.updateTargetLocation = false)) ∧
    (s.handleData.updateTargetLocation = false → t ≠ s.currentTransform →
      ((SetTarget s t updateTransformInstantly).currentTransform = t ↔
        updateTransformInstantly = true)) := by
  cases hu : s.handleData.updateTargetLocation <;> cases updateTransformInstantly <;>
    simp [SetTarget, hu, UpdateHandleTransform_targetTransform,
      UpdateHandleTransform_currentTransform] <;>
    exact fun h1 h2 => h1 h2.symm

theorem SetTarget_rejected_iff_updateTargetLocation_witness :
    SetTarget constructed movedTransform true = constructed ∧
    (SetTarget manualTarget movedTransform true).targetTransform = movedTransform ∧
    (SetTarget manualTarget movedTransform true).currentTransform = movedTransform ∧
    (SetTarget manualTarget movedTransform false).currentTransform = FTransform.identity :=
  ⟨(SetTarget_rejected_iff_updateTargetLocation constructed movedTransform true).1 rfl,
   ((SetTarget_rejected_iff_updateTargetLocation manualTarget movedTransform true).2.1 rfl).1,
   ((SetTarget_rejected_iff_updateTargetLocation manualTarget movedTransform true).2.1 rfl).2,
   ((SetTarget_rejected_iff_updateTargetLocation manualTarget movedTransform false).2.1 rfl).2⟩

end UVRPhysicsHandleComponent

/-! ## Theorems: VRMovement -/

namespace AVRMovement

theorem CreateTeleportSpline_cancel (f : TeleportFrame) (s : AVRMovement)
    (out : FVector) (hup : IsNearlyEqual f.handForwardZ 1 (3 / 10) = true) :
    CreateTeleportSpline f s out =
      (false, out, UpdateTeleportMaterials
        { s with splineMeshes := s.splineMeshes + 1, teleportSplineEndMeshVisible := true }
        false) := by
  unfold CreateTeleportSpline
  rw [if_pos hup]

theorem UpdateTeleport_cancel_lastTeleportValid (f : TeleportFrame) (s : AVRMovement)
    (hup : IsNearlyEqual f.handForwardZ 1 (3 / 10) = true) :
    (UpdateTeleport f s).lastTeleportValid = s.lastTeleportValid := by
  unfold UpdateTeleport
  simp only [CreateTeleportSpline_cancel f _ _ hup]
  rfl

/-- C5 (what the code does): in Teleport mode, preview a valid target, then preview with
the hand pointing straight up (the cancel branch of `CreateTeleportSpline`), then release.
The cancelled preview leaves `lastTeleportValid` set, and the release starts the camera
fade whose timer then teleports the player to the target of the older preview. -/
theorem UpdateMovement_cancelled_preview_still_teleports :
    IsNearlyEqual TeleportFrame.pointingUp.handForwardZ 1 (3 / 10) = true ∧
    (runMovement (fun st _ => st) constructed
      [⟨TeleportFrame.landing, some 7, false⟩,
       ⟨TeleportFrame.pointingUp, some 7, false⟩]).lastTeleportValid = true ∧
    (runMovement (fun st _ => st) constructed
      [⟨TeleportFrame.landing, some 7, false⟩,
       ⟨TeleportFrame.pointingUp, some 7, false⟩,
       ⟨TeleportFrame.pointingUp, some 7, true⟩]).teleportTimer = true ∧
    (TeleportTimerFires (runMovement (fun st _ => st) constructed
      [⟨TeleportFrame.landing, some 7, false⟩,
       ⟨TeleportFrame.pointingUp, some 7, false⟩,
       ⟨TeleportFrame.pointingUp, some 7, true⟩])).playerMoves
      = [(⟨300, 0, 0⟩, FRotator.ZeroRotator)] := by
  decide!

end AVRMovement

/-! ## Theorems: EffectsContainer -/

namespace UEffectsContainer

/-- C6 (what the code does): `GetFeedback`, `GetParticleSystem` and `GetAudio` return the
stored pointer for a name that is a key of their container, and for a name that is not a
key they read through the null pointer `Find` returns instead of returning null. -/
theorem Get_missing_key_reads_null (c : UEffectsContainer) (name : FName) :
    (c.feedbackContainer.Find name = none → c.GetFeedback name = .error Fault.nullDeref) ∧
    (c.particlesContainer.Find name = none →
      c.GetParticleSystem name = .error Fault.nullDeref) ∧
    (c.audioContainer.Find name = none → c.GetAudio name = .error Fault.nullDeref) ∧
    (∀ stored, c.feedbackContainer.Find name = some stored → c.GetFeedback name = .ok stored) ∧
    (∀ stored, c.particlesContainer.Find name = some stored →
      c.GetParticleSystem name = .ok stored) ∧
    (∀ stored, c.audioContainer.Find name = some stored → c.GetAudio name = .ok stored) := by
  refine ⟨?_, ?_, ?_, ?_, ?_, ?_⟩
  · intro h; simp [GetFeedback, h]
  · intro h; simp [GetParticleSystem, h]
  · intro h; simp [GetAudio, h]
  · intro stored h; cases stored <;> simp [GetFeedback, h]
  · intro stored h; cases stored <;> simp [GetParticleSystem, h]
  · intro stored h; cases stored <;> simp [GetAudio, h]

theorem Get_missing_key_reads_null_witness :
    UEffectsContainer.empty.feedbackContainer.Find "Default" = none ∧
    UEffectsContainer.empty.GetFeedback "Default" = .error Fault.nullDeref ∧
    UEffectsContainer.empty.GetParticleSystem "Default" = .error Fault.nullDeref ∧
    UEffectsContainer.empty.GetAudio "Default" = .error Fault.nullDeref ∧
    UEffectsContainer.sample.GetFeedback "Default" = .ok (some 40) :=
  ⟨rfl,
   (Get_missing_key_reads_null UEffectsContainer.empty "Default").1 rfl,
   (Get_missing_key_reads_null UEffectsContainer.empty "Default").2.1 rfl,
   (Get_missing_key_reads_null UEffectsContainer.empty "Default").2.2.1 rfl,
   (Get_missing_key_reads_null UEffectsContainer.sample "Default").2.2.2.1 (some 40)
     (by decide)⟩

end UEffectsContainer

/-! ## Theorems: VRHand -/

namespace AVRHand

/-- For every hand record with `grabbing == false`, `ForceGrab` completes, grabs nothing and
writes only `objectInHand`, which it sets to null; so the call changes nothing when
`objectInHand` was already null. -/
theorem ForceGrab_not_grabbing (twoHandedGrabbing : ObjId → Bool) (p : HandPair)
    (objectToForceGrab : Option ObjId) (hg : p.self.grabbing = false) :
    ForceGrab twoHandedGrabbing p objectToForceGrab
      = .ok { p with self := { p.self with objectInHand := none } } ∧
    (p.self.objectInHand = none → ForceGrab twoHandedGrabbing p objectToForceGrab = .ok p) := by
  have h1 : ForceGrab twoHandedGrabbing p objectToForceGrab
      = .ok { p with self := { p.self with objectInHand := none } } := by
    simp [ForceGrab, hg]
  refine ⟨h1, fun hnone => ?_⟩
  rw [h1]
  cases p with
  | mk self other =>
    cases self
    simp_all

theorem ReleaseGrabbedActor_objectInHand (h : AVRHand) :
    h.ReleaseGrabbedActor.objectInHand = none := by
  unfold ReleaseGrabbedActor
  cases ho : h.objectInHand with
  | none => exact ho
  | some o => dsimp only; split <;> rfl

theorem Drop_holdsOnlyWhileGrabbing (h : AVRHand) : HoldsOnlyWhileGrabbing h.Drop := by
  intro _
  unfold Drop
  cases ho : h.objectInHand with
  | none => simpa using ho
  | some o => simpa using ReleaseGrabbedActor_objectInHand h

theorem PlayFeedback_grabbing (h h' : AVRHand) (f : Option ObjId) (i : ℚ) (r b : Bool)
    (c : Option HapticCall) (hok : h.PlayFeedback f i r = .ok (b, h', c)) :
    h'.grabbing = h.grabbing := by
  have key : ∀ (sp : Bool) (ftu : Except Fault (Option ObjId)),
      (if sp = true then
        (match ftu with
          | .error e => (.error e : Except Fault (Bool × AVRHand × Option HapticCall))
          | .ok (some g) =>
            .ok (true, { h with currentHapticIntesity := i }, some ⟨g, h.handEnum, i, false⟩)
          | .ok none => .ok (false, h, none))
       else .ok (false, h, none)) = .ok (b, h', c) → h'.grabbing = h.grabbing := by
    intro sp ftu hk
    cases sp
    · cases hk; rfl
    · rcases ftu with e | (_ | g)
      · cases hk
      · cases hk; rfl
      · cases hk; rfl
  unfold PlayFeedback at hok
  split at hok
  · cases hok; rfl
  · exact key _ _ hok

theorem Grab_grabbing (twoHandedGrabbing : ObjId → Bool) (p p' : HandPair)
    (hok : Grab twoHandedGrabbing p = .ok p') : p'.self.grabbing = true := by
  unfold Grab at hok
  dsimp only at hok
  split at hok
  · split at hok
    · cases hok
    · rename_i hpf
      cases hok
      rw [PlayFeedback_grabbing _ _ _ _ _ _ _ hpf]
      dsimp only [ActivateCollision]
      split <;> rfl
  · cases hok
    rfl

theorem ForceGrab_holdsOnlyWhileGrabbing (twoHandedGrabbing : ObjId → Bool) (p p' : HandPair)
    (o : Option ObjId) (hok : ForceGrab twoHandedGrabbing p o = .ok p') :
    HoldsOnlyWhileGrabbing p'.self := by
  intro hng
  unfold ForceGrab at hok
  cases hg : p.self.grabbing with
  | false =>
    simp [hg] at hok
    rw [← hok]
  | true =>
    simp only [hg, if_true] at hok
    rw [Grab_grabbing _ _ _ hok] at hng
    cases hng

/-- What `PlayFeedback` leaves of the hand: the hand itself, or the hand with the new
intensity stored. -/
theorem PlayFeedback_hand (h h' : AVRHand) (f : Option ObjId) (i : ℚ) (r b : Bool)
    (c : Option HapticCall) (hok : h.PlayFeedback f i r = .ok (b, h', c)) :
    h' = h ∨ h' = { h with currentHapticIntesity := i } := by
  have key : ∀ (sp : Bool) (ftu : Except Fault (Option ObjId)),
      (if sp = true then
        (match ftu with
          | .error e => (.error e : Except Fault (Bool × AVRHand × Option HapticCall))
          | .ok (some g) =>
            .ok (true, { h with currentHapticIntesity := i }, some ⟨g, h.handEnum, i, false⟩)
          | .ok none => .ok (false, h, none))
       else .ok (false, h, none)) = .ok (b, h', c) →
      (h' = h ∨ h' = { h with currentHapticIntesity := i }) := by
    intro sp ftu hk
    cases sp
    · cases hk; exact Or.inl rfl
    · rcases ftu with e | (_ | g)
      · cases hk
      · cases hk; exact Or.inl rfl
      · cases hk; exact Or.inr rfl
  unfold PlayFeedback at hok
  split at hok
  · cases hok; exact Or.inl rfl
  · exact key _ _ hok

theorem CheckForOverlappingActors_keeps (h : AVRHand) (overlapping : List OverlappingComponent) :
    (h.CheckForOverlappingActors overlapping).grabbing = h.grabbing ∧
    (h.CheckForOverlappingActors overlapping).objectInHand = h.objectInHand := by
  unfold CheckForOverlappingActors
  dsimp only
  split
  · split
    · split <;> exact ⟨rfl, rfl⟩
    · split <;> exact ⟨rfl, rfl⟩
  · exact ⟨rfl, rfl⟩

/-- A call of `Grab` leaves the other hand as it was or releases what it holds. -/
theorem Grab_otherHand (twoHandedGrabbing : ObjId → Bool) (p p' : HandPair)
    (hok : Grab twoHandedGrabbing p = .ok p') :
    p'.otherHand = p.otherHand ∨
      ∃ oh, p.otherHand = some oh ∧ p'.otherHand = some oh.ReleaseGrabbedActor := by
  unfold Grab at hok
  dsimp only at hok
  split at hok
  · split at hok
    · cases hok
    · cases hok
      dsimp only
      cases ho : p.otherHand with
      | none => exact Or.inl rfl
      | some oh =>
        dsimp only
        split
        · split
          · exact Or.inr ⟨oh, rfl, rfl⟩
          · exact Or.inl rfl
        · exact Or.inl rfl
  · cases hok
    exact Or.inl rfl

theorem ForceGrab_otherHand (twoHandedGrabbing : ObjId → Bool) (p p' : HandPair)
    (o : Option ObjId) (hok : ForceGrab twoHandedGrabbing p o = .ok p') :
    p'.otherHand = p.otherHand ∨
      ∃ oh, p.otherHand = some oh ∧ p'.otherHand = some oh.ReleaseGrabbedActor := by
  unfold ForceGrab at hok
  dsimp only at hok
  split at hok
  · have hg := Grab_otherHand twoHandedGrabbing _ p' hok
    exact hg
  · cases hok
    exact Or.inl rfl

/-- Every call on a hand keeps "a hand that is not grabbing holds nothing". -/
theorem HandCall_run_holdsOnlyWhileGrabbing (twoHandedGrabbing : ObjId → Bool)
    (p p' : HandPair) (c : HandCall) (hok : c.run twoHandedGrabbing p = .ok p')
    (hinv : HoldsOnlyWhileGrabbing p.self) : HoldsOnlyWhileGrabbing p'.self := by
  cases c with
  | Grab =>
    intro hng
    rw [Grab_grabbing twoHandedGrabbing p p' hok] at hng
    cases hng
  | ForceGrab o => exact ForceGrab_holdsOnlyWhileGrabbing twoHandedGrabbing p p' o hok
  | Drop =>
    cases hok
    exact Drop_holdsOnlyWhileGrabbing p.self
  | ReleaseGrabbedActor =>
    cases hok
    intro _
    exact ReleaseGrabbedActor_objectInHand p.self
  | CheckForOverlappingActors overlapping =>
    cases hok
    intro hng
    have hk := CheckForOverlappingActors_keeps p.self overlapping
    exact hk.2.trans (hinv (hk.1.symm.trans hng))
  | PlayFeedback f i r =>
    simp only [HandCall.run] at hok
    split at hok
    · cases hok
    · rename_i b h c hpf
      cases hok
      rcases PlayFeedback_hand p.self h f i r b c hpf with hh | hh
      · rw [hh]; exact hinv
      · rw [hh]; exact hinv
  | OtherFieldsChanged setup =>
    cases hok
    exact hinv

/-- Every call on a hand leaves the other hand as it was or releases what it holds. -/
theorem HandCall_run_otherHand (twoHandedGrabbing : ObjId → Bool)
    (p p' : HandPair) (c : HandCall) (hok : c.run twoHandedGrabbing p = .ok p') :
    p'.otherHand = p.otherHand ∨
      ∃ oh, p.otherHand = some oh ∧ p'.otherHand = some oh.ReleaseGrabbedActor := by
  cases c with
  | Grab => exact Grab_otherHand twoHandedGrabbing p p' hok
  | ForceGrab o => exact ForceGrab_otherHand twoHandedGrabbing p p' o hok
  | Drop => cases hok; exact Or.inl rfl
  | ReleaseGrabbedActor => cases hok; exact Or.inl rfl
  | CheckForOverlappingActors overlapping => cases hok; exact Or.inl rfl
  | PlayFeedback f i r =>
    simp only [HandCall.run] at hok
    split at hok
    · cases hok
    · cases hok; exact Or.inl rfl
  | OtherFieldsChanged setup => cases hok; exact Or.inl rfl

theorem HandEvent_run_holdsOnlyWhileGrabbing (twoHandedGrabbing : ObjId → Bool)
    (p p' : HandPair) (e : HandEvent) (hok : e.run twoHandedGrabbing p = .ok p')
    (hinv : HoldsOnlyWhileGrabbing p.self) : HoldsOnlyWhileGrabbing p'.self := by
  unfold HandEvent.run at hok
  split at hok
  · split at hok
    · cases hok; exact hinv
    · rename_i oh hoh
      split at hok
      · cases hok
      · rename_i q hq
        cases hok
        rcases HandCall_run_otherHand twoHandedGrabbing _ q e.call hq with ho | ⟨x, hx, ho⟩
        · rw [ho]; exact hinv
        · rw [ho]
          cases hx
          intro _
          exact ReleaseGrabbedActor_objectInHand p.self
  · exact HandCall_run_holdsOnlyWhileGrabbing twoHandedGrabbing p p' e.call hok hinv

theorem runHandEvents_holdsOnlyWhileGrabbing (twoHandedGrabbing : ObjId → Bool)
    (events : List HandEvent) (p p' : HandPair)
    (hok : runHandEvents twoHandedGrabbing p events = .ok p')
    (hinv : HoldsOnlyWhileGrabbing p.self) : HoldsOnlyWhileGrabbing p'.self := by
  induction events generalizing p with
  | nil =>
    cases hok
    exact hinv
  | cons e rest ih =>
    unfold runHandEvents at hok
    split at hok
    · cases hok
    · rename_i q hq
      exact ih q hok (HandEvent_run_holdsOnlyWhileGrabbing twoHandedGrabbing p q e hq hinv)

/-- C7: in every state a hand reaches from the grab state of its constructor by any
sequence of `Grab`, `ForceGrab`, `Drop`, `ReleaseGrabbedActor`,
`CheckForOverlappingActors` and `PlayFeedback` calls on it or on the other hand, and of
changes of the fields that are not part of the grab state, a hand with `grabbing == false`
holds nothing, so
`ForceGrab(o)` completes and has no effect on the hand: `objectInHand` and `objectToGrab`
are the same after the call as before it, as is every other field of both hands. -/
theorem ForceGrab_has_no_effect_unless_grabbing (twoHandedGrabbing : ObjId → Bool)
    (h0 : AVRHand) (other0 : Option AVRHand) (events : List HandEvent) (p : HandPair)
    (o : Option ObjId)
    (hrun : runHandEvents twoHandedGrabbing ⟨h0.constructedGrabState, other0⟩ events = .ok p)
    (hg : p.self.grabbing = false) :
    ∃ p', ForceGrab twoHandedGrabbing p o = .ok p' ∧
      p'.self.objectInHand = p.self.objectInHand ∧
      p'.self.objectToGrab = p.self.objectToGrab ∧
      p' = p := by
  have hinv : HoldsOnlyWhileGrabbing p.self :=
    runHandEvents_holdsOnlyWhileGrabbing twoHandedGrabbing events
      ⟨h0.constructedGrabState, other0⟩ p hrun (fun _ => rfl)
  exact ⟨p, (ForceGrab_not_grabbing twoHandedGrabbing p o hg).2 (hinv hg), rfl, rfl, rfl⟩

theorem ForceGrab_has_no_effect_unless_grabbing_witness :
    runHandEvents (fun _ => false)
        ⟨(constructed EControllerHand.Left (some ⟨none, none⟩)).constructedGrabState,
          some (constructed EControllerHand.Right (some ⟨none, none⟩))⟩
        [⟨false, .CheckForOverlappingActors [⟨some 7, true, 5⟩]⟩, ⟨false, .Grab⟩,
          ⟨true, .Grab⟩, ⟨true, .ForceGrab (some 7)⟩, ⟨false, .Drop⟩]
      = .ok ⟨{ constructed EControllerHand.Left (some ⟨none, none⟩) with
                currentHapticIntesity := 1, collisionEnabled := true },
              some { constructed EControllerHand.Right (some ⟨none, none⟩) with
                grabbing := true, objectToGrab := some 7, objectInHand := some 7,
                handSkelVisible := false, currentHapticIntesity := 1 }⟩ ∧
    ForceGrab (fun _ => false)
        ⟨{ constructed EControllerHand.Left (some ⟨none, none⟩) with
            currentHapticIntesity := 1, collisionEnabled := true },
          some { constructed EControllerHand.Right (some ⟨none, none⟩) with
            grabbing := true, objectToGrab := some 7, objectInHand := some 7,
            handSkelVisible := false, currentHapticIntesity := 1 }⟩ (some 9)
      = .ok ⟨{ constructed EControllerHand.Left (some ⟨none, none⟩) with
                currentHapticIntesity := 1, collisionEnabled := true },
              some { constructed EControllerHand.Right (some ⟨none, none⟩) with
                grabbing := true, objectToGrab := some 7, objectInHand := some 7,
                handSkelVisible := false, currentHapticIntesity := 1 }⟩ := by
  refine ⟨rfl, ?_⟩
  obtain ⟨p', h1, _, _, h4⟩ :=
    ForceGrab_has_no_effect_unless_grabbing (fun _ => false)
      (constructed EControllerHand.Left (some ⟨none, none⟩))
      (some (constructed EControllerHand.Right (some ⟨none, none⟩)))
      [⟨false, .CheckForOverlappingActors [⟨some 7, true, 5⟩]⟩, ⟨false, .Grab⟩,
        ⟨true, .Grab⟩, ⟨true, .ForceGrab (some 7)⟩, ⟨false, .Drop⟩]
      ⟨{ constructed EControllerHand.Left (some ⟨none, none⟩) with
          currentHapticIntesity := 1, collisionEnabled := true },
        some { constructed EControllerHand.Right (some ⟨none, none⟩) with
          grabbing := true, objectToGrab := some 7, objectInHand := some 7,
          handSkelVisible := false, currentHapticIntesity := 1 }⟩ (some 9) rfl rfl
  rw [h1, h4]

/-- With an owning controller, `IsPlayingFeedback` in terms of the two haptic slots of the
controller. -/
theorem IsPlayingFeedback_slots (h : AVRHand) (controller : APlayerController)
    (hc : h.owningController = some controller) :
    h.IsPlayingFeedback =
      (if h.handEnum = EControllerHand.Left then
        controller.ActiveHapticEffect_Left.isSome || controller.ActiveHapticEffect_Right.isSome
      else controller.ActiveHapticEffect_Right.isSome) := by
  unfold IsPlayingFeedback
  rw [hc]
  obtain ⟨l, r⟩ := controller
  by_cases hl : h.handEnum = EControllerHand.Left <;> cases l <;> cases r <;> simp [hl]

/-- C8 (what the code does): for a hand with an owning controller and a non-null effect,
`PlayFeedback` with `replace == false` plays, returns true and stores the new intensity
if and only if the stored intensity is strictly less than the new one or no slot the hand
looks at holds an effect; a left hand looks at its own slot and at the right slot, any other
hand at the right slot.  Otherwise it returns false and leaves the hand unchanged.  So a
left hand on which nothing is playing refuses an effect that is not stronger than its stored
intensity while the right hand is playing one.  With `replace == true` it always plays. -/
theorem PlayFeedback_left_hand_yields_to_right_slot (h : AVRHand)
    (controller : APlayerController) (f : ObjId) (i : ℚ)
    (hc : h.owningController = some controller) :
    (∃ r h' call, h.PlayFeedback (some f) i false = .ok (r, h', call) ∧
      ((r = true ∧ h'.currentHapticIntesity = i) ↔
        ((if h.handEnum = EControllerHand.Left then
            controller.ActiveHapticEffect_Left.isSome ||
              controller.ActiveHapticEffect_Right.isSome
          else controller.ActiveHapticEffect_Right.isSome) = false ∨
          h.currentHapticIntesity < i)) ∧
      (r = true →
        h' = { h with currentHapticIntesity := i } ∧
          call = some ⟨f, h.handEnum, i, false⟩) ∧
      (r = false → h' = h ∧ call = none)) ∧
    (h.handEnum = EControllerHand.Left → controller.ActiveHapticEffect_Left = none →
      controller.ActiveHapticEffect_Right.isSome = true → i ≤ h.currentHapticIntesity →
      h.PlayFeedback (some f) i false = .ok (false, h, none)) ∧
    h.PlayFeedback (some f) i true
      = .ok (true, { h with currentHapticIntesity := i }, some ⟨f, h.handEnum, i, false⟩) := by
  have hs := IsPlayingFeedback_slots h controller hc
  refine ⟨?_, ?_, ?_⟩
  · rw [← hs]
    cases hp : h.IsPlayingFeedback
    · exact ⟨true, { h with currentHapticIntesity := i }, some ⟨f, h.handEnum, i, false⟩,
        by simp [PlayFeedback, hc, hp], by simp, by simp, by simp⟩
    · by_cases hlt : h.currentHapticIntesity < i
      · exact ⟨true, { h with currentHapticIntesity := i }, some ⟨f, h.handEnum, i, false⟩,
          by simp [PlayFeedback, GetCurrentFeedbackIntensity, hc, hp, hlt], by simp [hlt],
          by simp, by simp⟩
      · exact ⟨false, h, none,
          by simp [PlayFeedback, GetCurrentFeedbackIntensity, hc, hp, hlt], by simp [hlt],
          by simp, by simp⟩
  · intro hl hleft hright hle
    have hp : h.IsPlayingFeedback = true := by
      rw [hs, if_pos hl, hright, Bool.or_true]
    simp [PlayFeedback, GetCurrentFeedbackIntensity, hc, hp, not_lt.mpr hle]
  · simp [PlayFeedback, hc]

theorem PlayFeedback_left_hand_yields_to_right_slot_witness :
    ∃ h1 call,
      (constructed EControllerHand.Left (some ⟨none, none⟩)).PlayFeedback (some 3) (1 / 2) false
        = .ok (true, h1, call) ∧
      ({ h1 with owningController := some ⟨none, some 5⟩ } : AVRHand).PlayFeedback
          (some 3) (1 / 4) false
        = .ok (false, { h1 with owningController := some ⟨none, some 5⟩ }, none) :=
  ⟨_, _, rfl,
    (PlayFeedback_left_hand_yields_to_right_slot _ ⟨none, some 5⟩ 3 (1 / 4) rfl).2.1
      rfl rfl rfl (by decide!)⟩

/-- C9 (what the code does): with an owning controller, `IsPlayingFeedback` of a left hand
is true as soon as either side has a valid active effect, since the `else if` that tests
the right side also runs for a left hand whose own effect is not valid; for any other hand
it reports the right side. -/
theorem IsPlayingFeedback_value (h : AVRHand) (controller : APlayerController)
    (hc : h.owningController = some controller) :
    h.IsPlayingFeedback =
      (if h.handEnum = EControllerHand.Left then
        controller.ActiveHapticEffect_Left.isSome || controller.ActiveHapticEffect_Right.isSome
      else controller.ActiveHapticEffect_Right.isSome) := by
  unfold IsPlayingFeedback
  rw [hc]
  obtain ⟨l, r⟩ := controller
  by_cases hl : h.handEnum = EControllerHand.Left <;> cases l <;> cases r <;> simp [hl]

theorem IsPlayingFeedback_value_witness :
    (constructed EControllerHand.Left (some ⟨none, some 5⟩)).IsPlayingFeedback = true :=
  IsPlayingFeedback_value (constructed EControllerHand.Left (some ⟨none, some 5⟩))
    ⟨none, some 5⟩ rfl

end AVRHand

/-! ## Theorems: RotatableStaticMesh -/

namespace URotatableStaticMesh

theorem UpdateRotation_cumulativeAngle (s : URotatableStaticMesh) :
    s.UpdateRotation.cumulativeAngle = s.cumulativeAngle ∧
    s.UpdateRotation.actualCumulativeAngle = s.actualCumulativeAngle := by
  unfold UpdateRotation
  split
  · dsimp only
    split <;> exact ⟨rfl, rfl⟩
  · exact ⟨rfl, rfl⟩

theorem FMathClamp_zero_zero (x : ℚ) : FMathClamp x 0 0 = 0 := by
  unfold FMathClamp
  split_ifs <;> rfl

/-- C10 (what the code does): on a rotatable with `rotationLimit == 0`,
`SetRotatableRotation(a, false, false)` clamps the angle into the empty range and leaves
`cumulativeAngle` and `actualCumulativeAngle` at 0, whatever the angle asked for. -/
theorem SetRotatableRotation_free_rotatable_clamps_to_zero (s : URotatableStaticMesh)
    (a : ℚ) (hfree : s.rotationLimit = 0) :
    (s.SetRotatableRotation a false false).cumulativeAngle = 0 ∧
    (s.SetRotatableRotation a false false).actualCumulativeAngle = 0 := by
  unfold SetRotatableRotation
  simp only [hfree, abs_zero, zero_div, neg_zero, lt_self_iff_false, if_false,
    FMathClamp_zero_zero, ite_self, Bool.false_eq_true, false_and]
  exact ⟨(UpdateRotation_cumulativeAngle _).1, (UpdateRotation_cumulativeAngle _).2⟩

theorem SetRotatableRotation_free_rotatable_clamps_to_zero_witness :
    constructed.rotationLimit = 0 ∧
    (constructed.SetRotatableRotation 90 false false).cumulativeAngle = 0 ∧
    (constructed.SetRotatableRotation 90 false false).actualCumulativeAngle = 0 :=
  ⟨rfl, SetRotatableRotation_free_rotatable_clamps_to_zero constructed 90 rfl⟩

end URotatableStaticMesh

/-! ## Theorems: the tick of VRPhysicsHandleComponent -/

namespace UVRPhysicsHandleComponent

theorem ReinitJoint_teleported (s : UVRPhysicsHandleComponent) :
    (ReinitJoint s).teleported = s.teleported := by
  unfold ReinitJoint
  cases s.joint <;> rfl

theorem UpdateHandleTransform_teleported (s : UVRPhysicsHandleComponent) (t : FTransform) :
    (UpdateHandleTransform s t).teleported = s.teleported := by
  unfold UpdateHandleTransform
  cases s.targetActor with
  | none => rfl
  | some a => dsimp only; split <;> rfl

theorem TeleportGrabbedComp_keeps (s : UVRPhysicsHandleComponent) :
    s.TeleportGrabbedComp.handleData.interpolate = s.handleData.interpolate ∧
    (s.teleported = true → s.TeleportGrabbedComp.teleported = true) := by
  unfold TeleportGrabbedComp
  split
  · simp [ToggleDrive, ReinitJoint_handleData]
  · exact ⟨rfl, id⟩

theorem UpdateRepositionCheck_keeps (w : TickWorld) (s s' : UVRPhysicsHandleComponent)
    (hok : UpdateRepositionCheck w s = .ok s') :
    s'.handleData.interpolate = s.handleData.interpolate ∧
    (s.teleported = true → s'.teleported = true) := by
  unfold UpdateRepositionCheck at hok
  split at hok
  · cases hok
  · split at hok
    · cases hok
    · dsimp only at hok
      split at hok
      · split at hok
        · cases hok; exact TeleportGrabbedComp_keeps s
        · cases hok; exact ⟨rfl, id⟩
      · cases hok; exact ⟨rfl, id⟩

theorem TickFollowTarget_keeps (w : TickWorld) (s s' : UVRPhysicsHandleComponent)
    (hok : TickFollowTarget w s = .ok s') :
    s'.handleData.interpolate = s.handleData.interpolate ∧
    (s.teleported = true → s'.teleported = true) := by
  unfold TickFollowTarget at hok
  split at hok
  · cases hok; exact ⟨rfl, id⟩
  · split at hok
    · dsimp only at hok
      split at hok
      · exact UpdateRepositionCheck_keeps w
          { s with targetTransform := TickTargetTransform w s _ } s' hok
      · cases hok; exact ⟨rfl, id⟩
    · cases hok; exact ⟨rfl, id⟩

theorem UpdateRepositionCheck_completes (w : TickWorld) (s : UVRPhysicsHandleComponent)
    (t g : ObjId) (ht : s.targetComponent = some t) (hg : s.grabbedComponent = some g) :
    ∃ s', UpdateRepositionCheck w s = .ok s' := by
  unfold UpdateRepositionCheck GetGrabbedTargetTransform
  simp only [ht, hg]
  split
  · split
    · exact ⟨_, rfl⟩
    · exact ⟨_, rfl⟩
  · exact ⟨_, rfl⟩

theorem TickFollowTarget_completes (w : TickWorld) (s : UVRPhysicsHandleComponent)
    (hsafe : ¬ (s.handleData.updateTargetLocation = true ∧ s.targetComponent.isSome = true ∧
      s.reposition = true ∧ s.grabbedComponent = none)) :
    ∃ s', TickFollowTarget w s = .ok s' := by
  unfold TickFollowTarget
  split
  · exact ⟨_, rfl⟩
  · rename_i t ht
    split
    · rename_i hu
      dsimp only
      split
      · rename_i hr
        by_cases hgn : s.grabbedComponent = none
        · exact absurd ⟨hu, by simp [ht], hr, hgn⟩ hsafe
        · obtain ⟨g, hg⟩ := Option.ne_none_iff_exists'.mp hgn
          exact UpdateRepositionCheck_completes w
            { s with targetTransform := TickTargetTransform w s t } t g ht hg
      · exact ⟨_, rfl⟩
    · exact ⟨_, rfl⟩

theorem TickInterpolate_result (w : TickWorld) (DeltaTime : ℚ) (s : UVRPhysicsHandleComponent) :
    ((s.handleData.interpolate = false ∨ s.teleported = true) →
      (TickInterpolate w DeltaTime s).currentTransform
        = (TickInterpolate w DeltaTime s).targetTransform) ∧
    (TickInterpolate w DeltaTime s).teleported = false := by
  unfold TickInterpolate
  cases hi : s.handleData.interpolate <;> cases ht : s.teleported <;> simp [hi, ht]

end UVRPhysicsHandleComponent

namespace UVRPhysicsHandleComponent

theorem ReinitJoint_targetTransform (s : UVRPhysicsHandleComponent) :
    (ReinitJoint s).targetTransform = s.targetTransform := by
  unfold ReinitJoint
  cases s.joint <;> rfl

theorem UpdateRepositionCheck_targetTransform (w : TickWorld)
    (s s' : UVRPhysicsHandleComponent) (hok : UpdateRepositionCheck w s = .ok s') :
    s'.targetTransform = s.targetTransform := by
  have hT : s.TeleportGrabbedComp.targetTransform = s.targetTransform := by
    unfold TeleportGrabbedComp
    split
    · simp [ToggleDrive, ReinitJoint_targetTransform]
    · rfl
  unfold UpdateRepositionCheck at hok
  split at hok
  · cases hok
  · split at hok
    · cases hok
    · dsimp only at hok
      split at hok
      · split at hok
        · cases hok; exact hT
        · cases hok; rfl
      · cases hok; rfl

theorem TickFollowTarget_targetTransform (w : TickWorld) (s s' : UVRPhysicsHandleComponent)
    (t : ObjId) (ht : s.targetComponent = some t)
    (hu : s.handleData.updateTargetLocation = true)
    (hok : TickFollowTarget w s = .ok s') :
    s'.targetTransform = TickTargetTransform w s t := by
  unfold TickFollowTarget at hok
  split at hok
  · rename_i hnone
    rw [hnone] at ht
    cases ht
  · rename_i t' ht'
    have htt : t' = t := Option.some.inj (ht'.symm.trans ht)
    subst htt
    rw [if_pos hu] at hok
    dsimp only at hok
    split at hok
    · exact UpdateRepositionCheck_targetTransform w
        { s with targetTransform := TickTargetTransform w s t' } s' hok
    · cases hok; rfl

theorem TickInterpolate_targetTransform (w : TickWorld) (DeltaTime : ℚ)
    (s : UVRPhysicsHandleComponent) :
    (TickInterpolate w DeltaTime s).targetTransform = s.targetTransform := by
  unfold TickInterpolate
  split
  · rfl
  · dsimp only
    split <;> rfl

/-- The state `TickComponent` cannot finish in: the handle follows a target and repositions
while nothing is grabbed, so `UpdateRepositionCheck` reads through the null
`grabbedComponent`. -/
theorem TickComponent_reposition_without_grabbed :
    TickComponent TickWorld.simple (1 / 90) released = .error Fault.nullDeref := by
  rfl

/-- A tick of a handle that is not in the state of repositioning with nothing grabbed
completes; if `handleData.interpolate` is false or `teleported` is true when the tick starts,
then after the tick `currentTransform` equals `targetTransform`, which is the target computed
in that same tick when the handle follows a target component; and after the tick
`teleported` is false. -/
theorem TickComponent_completes (w : TickWorld) (DeltaTime : ℚ)
    (s : UVRPhysicsHandleComponent)
    (hsafe : ¬ (s.handleData.updateTargetLocation = true ∧ s.targetComponent.isSome = true ∧
      s.reposition = true ∧ s.grabbedComponent = none)) :
    ∃ s', TickComponent w DeltaTime s = .ok s' ∧
      ((s.handleData.interpolate = false ∨ s.teleported = true) →
        s'.currentTransform = s'.targetTransform) ∧
      (∀ t, s.targetComponent = some t → s.handleData.updateTargetLocation = true →
        s'.targetTransform = TickTargetTransform w s t) ∧
      s'.teleported = false := by
  obtain ⟨s1, h1⟩ := TickFollowTarget_completes w s hsafe
  have hk := TickFollowTarget_keeps w s s1 h1
  have hi := TickInterpolate_result w DeltaTime s1
  refine ⟨UpdateHandleTransform (TickInterpolate w DeltaTime s1)
    (TickInterpolate w DeltaTime s1).currentTransform, by simp only [TickComponent, h1], ?_, ?_, ?_⟩
  · intro h
    rw [UpdateHandleTransform_currentTransform, UpdateHandleTransform_targetTransform]
    apply hi.1
    rcases h with h | h
    · exact Or.inl (hk.1.trans h)
    · exact Or.inr (hk.2 h)
  · intro t ht hu
    rw [UpdateHandleTransform_targetTransform, TickInterpolate_targetTransform]
    exact TickFollowTarget_targetTransform w s s1 t ht hu h1
  · rw [UpdateHandleTransform_teleported]
    exact hi.2

/-- A tick of a handle that follows a target component and repositions while nothing is
grabbed stops in `UpdateRepositionCheck`, at the read through the null `grabbedComponent`. -/
theorem TickFollowTarget_faults (w : TickWorld) (s : UVRPhysicsHandleComponent)
    (hu : s.handleData.updateTargetLocation = true) (ht : s.targetComponent.isSome = true)
    (hr : s.reposition = true) (hg : s.grabbedComponent = none) :
    TickFollowTarget w s = .error Fault.nullDeref := by
  obtain ⟨t, ht⟩ := Option.isSome_iff_exists.mp ht
  unfold TickFollowTarget
  split
  · rename_i hnone
    rw [hnone] at ht
    cases ht
  · rw [if_pos hu]
    dsimp only
    rw [if_pos hr]
    unfold UpdateRepositionCheck GetGrabbedTargetTransform
    simp only [ht, hg]

/-- C16 (what the code does): a tick ends in a read through the null `grabbedComponent`,
before it reaches the interpolation, exactly when the handle follows a target component
(`handleData.updateTargetLocation` and `targetComponent` set) with `reposition` on while
nothing is grabbed, which is the state `DestroyJoint` leaves a repositioning handle in.
Every other tick completes: `teleported` is false after it, and if `handleData.interpolate`
was false or `teleported` was true then `currentTransform` equals `targetTransform`, the
target computed in that same tick when the handle follows a target component. -/
theorem TickComponent_faults_or_sets_target (w : TickWorld) (DeltaTime : ℚ)
    (s : UVRPhysicsHandleComponent) :
    (TickComponent w DeltaTime s = .error Fault.nullDeref ↔
      (s.handleData.updateTargetLocation = true ∧ s.targetComponent.isSome = true ∧
        s.reposition = true ∧ s.grabbedComponent = none)) ∧
    (¬ (s.handleData.updateTargetLocation = true ∧ s.targetComponent.isSome = true ∧
        s.reposition = true ∧ s.grabbedComponent = none) →
      ∃ s', TickComponent w DeltaTime s = .ok s' ∧
        ((s.handleData.interpolate = false ∨ s.teleported = true) →
          s'.currentTransform = s'.targetTransform) ∧
        (∀ t, s.targetComponent = some t → s.handleData.updateTargetLocation = true →
          s'.targetTransform = TickTargetTransform w s t) ∧
        s'.teleported = false) := by
  refine ⟨⟨fun herr => ?_, fun h => ?_⟩, TickComponent_completes w DeltaTime s⟩
  · by_contra hsafe
    obtain ⟨s', hok, _⟩ := TickComponent_completes w DeltaTime s hsafe
    rw [hok] at herr
    cases herr
  · simp only [TickComponent, TickFollowTarget_faults w s h.1 h.2.1 h.2.2.1 h.2.2.2]

theorem TickComponent_faults_or_sets_target_witness :
    (∃ s, CreateJoint simpleWorld repositioning (some 1) (some 2) "None" FVector.zero
        FRotator.ZeroRotator true FPhysicsHandleData.default = .ok s ∧
      TickComponent TickWorld.simple (1 / 90) (DestroyJoint s) = .error Fault.nullDeref) ∧
    (∃ s', TickComponent TickWorld.simple (1 / 90) following = .ok s' ∧
      s'.currentTransform = s'.targetTransform ∧
      s'.targetTransform = TickTargetTransform TickWorld.simple following 2 ∧
      s'.teleported = false) := by
  constructor
  · exact ⟨_, rfl,
      (TickComponent_faults_or_sets_target TickWorld.simple (1 / 90) _).1.mpr
        ⟨rfl, rfl, rfl, rfl⟩⟩
  · obtain ⟨s', h1, h2, h3, h4⟩ :=
      (TickComponent_faults_or_sets_target TickWorld.simple (1 / 90) following).2
        (by simp [following, constructed])
    exact ⟨s', h1, h2 (Or.inr rfl), h3 2 rfl rfl, h4⟩

end UVRPhysicsHandleComponent

/-! ## Theorems: SlidableStaticMesh -/

namespace USlidableStaticMesh

theorem UpdateConstraintBounds_ordered (s : USlidableStaticMesh) :
    s.UpdateConstraintBounds.minRelativeLoc ≤ s.UpdateConstraintBounds.maxRelativeLoc := by
  unfold UpdateConstraintBounds
  split
  · dsimp only
    have h : (0 : ℚ) ≤ |s.slideLimit| / 2 := by positivity
    linarith
  · split
    · rename_i h; exact le_of_lt h
    · rename_i h; exact not_lt.mp h

theorem validPosition_never (lo hi p : ℚ) (hb : lo ≤ hi) :
    (decide (p < lo) && decide (p > hi)) = false := by
  rw [Bool.and_eq_false_iff]
  by_cases h : p < lo
  · right
    exact decide_eq_false (not_lt.mpr (le_trans (le_of_lt h) hb))
  · left
    exact decide_eq_false h

/-- C12 (what the code does): with the bounds `UpdateConstraintBounds` computes (minimum not
above maximum) the test `positionAlongAxis < minRelativeLoc && positionAlongAxis >
maxRelativeLoc` is never true, so `SetSlidablePosition` never returns early: for every
position, also one outside the bounds, the grabbing hand is released and the position is
applied (stored for interpolation, or written to the relative location). -/
theorem SetSlidablePosition_never_rejects (s : USlidableStaticMesh) (p : ℚ)
    (interpolate : Bool) (interpSpeed : ℚ) (hb : s.minRelativeLoc ≤ s.maxRelativeLoc) :
    (s.SetSlidablePosition p interpolate interpSpeed).handRef = none ∧
    (interpolate = true →
      (s.SetSlidablePosition p interpolate interpSpeed).interpolating = true ∧
      (s.SetSlidablePosition p interpolate interpSpeed).relativeInterpolationPos = p ∧
      (s.SetSlidablePosition p interpolate interpSpeed).interpolationSpeed = interpSpeed) ∧
    (interpolate = false →
      s.currentAxis.get (s.SetSlidablePosition p interpolate interpSpeed).relativeLocation
        = p) := by
  unfold SetSlidablePosition
  simp only [validPosition_never _ _ p hb, Bool.false_eq_true, if_false]
  cases hh : s.handRef <;> cases interpolate <;> cases ha : s.currentAxis <;>
    simp [Released, ESlideAxis.get, ha, hh]

theorem SetSlidablePosition_never_rejects_witness :
    grabbed.maxRelativeLoc = 10 ∧
    (grabbed.SetSlidablePosition 20 false 8).handRef = none ∧
    ESlideAxis.X.get (grabbed.SetSlidablePosition 20 false 8).relativeLocation = 20 ∧
    (grabbed.SetSlidablePosition 20 true 8).relativeInterpolationPos = 20 := by
  have hb : grabbed.minRelativeLoc ≤ grabbed.maxRelativeLoc := by decide!
  have h1 := SetSlidablePosition_never_rejects grabbed 20 false 8 hb
  have h2 := SetSlidablePosition_never_rejects grabbed 20 true 8 hb
  exact ⟨by decide!, h1.1, h1.2.2 rfl, (h2.2.1 rfl).2.1⟩

theorem FMathClamp_mem (x lo hi : ℚ) (hb : lo ≤ hi) :
    lo ≤ FMathClamp x lo hi ∧ FMathClamp x lo hi ≤ hi := by
  unfold FMathClamp
  split_ifs with h1 h2
  · exact ⟨le_refl _, hb⟩
  · exact ⟨not_lt.mp h1, le_of_lt h2⟩
  · exact ⟨hb, le_refl _⟩

theorem FMathClamp_nearest (x lo hi y : ℚ) (hlo : lo ≤ y) (hhi : y ≤ hi) :
    |x - FMathClamp x lo hi| ≤ |x - y| := by
  unfold FMathClamp
  split_ifs with h1 h2
  · rw [abs_of_neg (by linarith), abs_of_neg (by linarith)]
    linarith
  · simp
  · have h3 : hi ≤ x := not_lt.mp h2
    rw [abs_of_nonneg (by linarith), abs_of_nonneg (by linarith)]
    linarith

theorem FMathClamp_inside (x lo hi : ℚ) (hlo : lo ≤ x) (hhi : x ≤ hi) :
    FMathClamp x lo hi = x := by
  unfold FMathClamp
  split_ifs with h1 h2
  · exact absurd h1 (not_lt.mpr hlo)
  · rfl
  · exact le_antisymm (not_lt.mp h2) hhi

/-- C13: when the lower slide limit is not above the upper one (as after
`UpdateConstraintBounds`), `ClampPosition` returns a vector whose coordinate on the slide
axis is the point of `[minRelativeLoc, maxRelativeLoc]` nearest to the parent-relative
coordinate `x` of the input (it lies in the interval, no point of the interval is nearer to
`x`, and it is `x` itself when `x` is inside), and whose coordinates on the two other axes
are those of the location of `originalRelativeTransform`. -/
theorem ClampPosition_closest_within_limits (toParentRelative : FVector → FVector)
    (s : USlidableStaticMesh) (position : FVector)
    (hb : s.minRelativeLoc ≤ s.maxRelativeLoc) :
    (s.minRelativeLoc ≤ s.currentAxis.get (ClampPosition toParentRelative s position).1 ∧
      s.currentAxis.get (ClampPosition toParentRelative s position).1 ≤ s.maxRelativeLoc) ∧
    (∀ y, s.minRelativeLoc ≤ y → y ≤ s.maxRelativeLoc →
      |s.currentAxis.get (toParentRelative position)
          - s.currentAxis.get (ClampPosition toParentRelative s position).1|
        ≤ |s.currentAxis.get (toParentRelative position) - y|) ∧
    (s.minRelativeLoc ≤ s.currentAxis.get (toParentRelative position) →
      s.currentAxis.get (toParentRelative position) ≤ s.maxRelativeLoc →
      s.currentAxis.get (ClampPosition toParentRelative s position).1
        = s.currentAxis.get (toParentRelative position)) ∧
    (∀ axis, axis ≠ s.currentAxis →
      axis.get (ClampPosition toParentRelative s position).1
        = axis.get s.originalRelativeTransform.Translation) := by
  unfold ClampPosition
  cases ha : s.currentAxis <;>
    refine ⟨FMathClamp_mem _ _ _ hb, fun y h1 h2 => FMathClamp_nearest _ _ _ y h1 h2,
      fun h1 h2 => FMathClamp_inside _ _ _ h1 h2, fun axis hne => ?_⟩ <;>
    cases axis <;> first | rfl | exact absurd rfl hne

theorem ClampPosition_closest_within_limits_witness :
    ESlideAxis.X.get (ClampPosition id grabbed ⟨25, 3, 4⟩).1 ≤ grabbed.maxRelativeLoc ∧
    ESlideAxis.X.get (ClampPosition id grabbed ⟨7, 3, 4⟩).1 = 7 ∧
    ESlideAxis.Y.get (ClampPosition id grabbed ⟨7, 3, 4⟩).1 = 0 := by
  have hb : grabbed.minRelativeLoc ≤ grabbed.maxRelativeLoc := by decide!
  have h1 := ClampPosition_closest_within_limits id grabbed ⟨25, 3, 4⟩ hb
  have h2 := ClampPosition_closest_within_limits id grabbed ⟨7, 3, 4⟩ hb
  exact ⟨h1.1.2, h2.2.2.1 (by decide!) (by decide!), h2.2.2.2 ESlideAxis.Y (by decide)⟩

end USlidableStaticMesh

/-! ## Theorems: ButtonStaticMesh -/

namespace UButtonStaticMesh

/-- The fields the toggle logic depends on. -/
theorem UpdateButton_fields (s : UButtonStaticMesh) (h b : Bool) :
    (UpdateButton s h b).on_ = b ∧ (UpdateButton s h b).alreadyToggled = true ∧
    (UpdateButton s h b).buttonMode = s.buttonMode ∧
    (UpdateButton s h b).cannotPress = s.cannotPress ∧
    (UpdateButton s h b).onDistance = s.onDistance := by
  unfold UpdateButton
  cases b <;> refine ⟨?_, ?_, ?_, ?_, ?_⟩ <;> dsimp only <;> split_ifs <;>
    first | rfl | contradiction

theorem UpdateButtonCollision_fields (s : UButtonStaticMesh) (b : Bool) :
    (UpdateButtonCollision s b).on_ = s.on_ ∧
    (UpdateButtonCollision s b).alreadyToggled = s.alreadyToggled ∧
    (UpdateButtonCollision s b).buttonMode = s.buttonMode ∧
    (UpdateButtonCollision s b).cannotPress = s.cannotPress ∧
    (UpdateButtonCollision s b).onDistance = s.onDistance := by
  unfold UpdateButtonCollision
  split_ifs <;> exact ⟨rfl, rfl, rfl, rfl, rfl⟩

theorem MoveButtonToHit_fields (f : ButtonFrame) (s : UButtonStaticMesh) :
    (MoveButtonToHit f s).on_ = s.on_ ∧
    (MoveButtonToHit f s).alreadyToggled = s.alreadyToggled ∧
    (MoveButtonToHit f s).buttonMode = s.buttonMode ∧
    (MoveButtonToHit f s).cannotPress = s.cannotPress ∧
    (MoveButtonToHit f s).onDistance = s.onDistance := by
  unfold MoveButtonToHit
  dsimp only
  split <;> exact ⟨rfl, rfl, rfl, rfl, rfl⟩

theorem UpdateButtonMode_toggle (rro : FVector → FVector) (f : ButtonFrame)
    (s : UButtonStaticMesh) (result : Bool) (hm : s.buttonMode = EButtonMode.Toggle) :
    UpdateButtonMode rro f s result =
      if s.alreadyToggled = false ∧ result = true then s.UpdateButton f.hitHand (!s.on_)
      else s := by
  unfold UpdateButtonMode
  rw [hm]
  cases s.alreadyToggled <;> cases result <;> simp

theorem UpdateButtonMode_toggle_fields (rro : FVector → FVector) (f : ButtonFrame)
    (s : UButtonStaticMesh) (hm : s.buttonMode = EButtonMode.Toggle) :
    (UpdateButtonMode rro f (MoveButtonToHit f s)
      (decide (f.offsetRelZ ≤ -(MoveButtonToHit f s).onDistance))).buttonMode = s.buttonMode ∧
    (UpdateButtonMode rro f (MoveButtonToHit f s)
      (decide (f.offsetRelZ ≤ -(MoveButtonToHit f s).onDistance))).cannotPress
        = s.cannotPress ∧
    (UpdateButtonMode rro f (MoveButtonToHit f s)
      (decide (f.offsetRelZ ≤ -(MoveButtonToHit f s).onDistance))).onDistance = s.onDistance ∧
    ((s.alreadyToggled = false ∧ f.offsetRelZ ≤ -s.onDistance) →
      (UpdateButtonMode rro f (MoveButtonToHit f s)
        (decide (f.offsetRelZ ≤ -(MoveButtonToHit f s).onDistance))).on_ = (!s.on_) ∧
      (UpdateButtonMode rro f (MoveButtonToHit f s)
        (decide (f.offsetRelZ ≤ -(MoveButtonToHit f s).onDistance))).alreadyToggled = true) ∧
    (¬ (s.alreadyToggled = false ∧ f.offsetRelZ ≤ -s.onDistance) →
      (UpdateButtonMode rro f (MoveButtonToHit f s)
        (decide (f.offsetRelZ ≤ -(MoveButtonToHit f s).onDistance))).on_ = s.on_ ∧
      (UpdateButtonMode rro f (MoveButtonToHit f s)
        (decide (f.offsetRelZ ≤ -(MoveButtonToHit f s).onDistance))).alreadyToggled
          = s.alreadyToggled) := by
  obtain ⟨m1, m2, m3, m4, m5⟩ := MoveButtonToHit_fields f s
  obtain ⟨u1, u2, u3, u4, u5⟩ :=
    UpdateButton_fields (MoveButtonToHit f s) f.hitHand (!(MoveButtonToHit f s).on_)
  rw [UpdateButtonMode_toggle rro f _ _ (m3.trans hm), m2, m5]
  by_cases hcnd : s.alreadyToggled = false ∧ f.offsetRelZ ≤ -s.onDistance
  · rw [if_pos ⟨hcnd.1, decide_eq_true hcnd.2⟩]
    refine ⟨u3.trans m3, u4.trans m4, u5.trans m5, fun _ => ⟨?_, u2⟩, fun h => absurd hcnd h⟩
    rw [u1, m1]
  · have hneg : ¬ (s.alreadyToggled = false ∧ decide (f.offsetRelZ ≤ -s.onDistance) = true) := by
      intro h
      exact hcnd ⟨h.1, of_decide_eq_true h.2⟩
    rw [if_neg hneg]
    exact ⟨m3, m4, m5, fun h => absurd h hcnd, fun _ => ⟨m1, m2⟩⟩

theorem UpdateButtonPosition_toggle_step (rro : FVector → FVector) (f : ButtonFrame)
    (s : UButtonStaticMesh) (hm : s.buttonMode = EButtonMode.Toggle)
    (hc : s.cannotPress = false) (hh : f.bBlockingHit = true) :
    (UpdateButtonPosition rro f s).buttonMode = EButtonMode.Toggle ∧
    (UpdateButtonPosition rro f s).cannotPress = false ∧
    (UpdateButtonPosition rro f s).onDistance = s.onDistance ∧
    (s.alreadyToggled = false → reachesOn s.onDistance f = true →
      (UpdateButtonPosition rro f s).on_ = (!s.on_) ∧
      (UpdateButtonPosition rro f s).alreadyToggled = true) ∧
    (s.alreadyToggled = false → reachesOn s.onDistance f = false →
      (UpdateButtonPosition rro f s).on_ = s.on_ ∧
      (UpdateButtonPosition rro f s).alreadyToggled = false) ∧
    (s.alreadyToggled = true →
      (UpdateButtonPosition rro f s).on_ = s.on_ ∧
      (UpdateButtonPosition rro f s).alreadyToggled = true) := by
  have hcond : (f.bBlockingHit = true ∧ (!s.cannotPress) = true) := by simp [hh, hc]
  unfold UpdateButtonPosition
  rw [if_pos hcond]
  by_cases hz : f.impactOffsetZ > 0
  · rw [if_pos hz]
    dsimp only
    obtain ⟨b1, b2, b3, b4, b5⟩ := UpdateButtonMode_toggle_fields rro f s hm
    obtain ⟨c1, c2, c3, c4, c5⟩ := UpdateButtonCollision_fields
      (UpdateButtonMode rro f (MoveButtonToHit f s)
        (decide (f.offsetRelZ ≤ -(MoveButtonToHit f s).onDistance)))
      (decide (f.offsetRelZ ≤ -(UpdateButtonMode rro f (MoveButtonToHit f s)
        (decide (f.offsetRelZ ≤ -(MoveButtonToHit f s).onDistance))).travelDistance))
    rw [c1, c2, c3, c4, c5]
    refine ⟨b1.trans hm, b2.trans hc, b3, ?_, ?_, ?_⟩
    · intro ht hr
      have hd : f.offsetRelZ ≤ -s.onDistance := by
        simp only [reachesOn, Bool.and_eq_true, decide_eq_true_eq] at hr
        exact hr.2
      exact b4 ⟨ht, hd⟩
    · intro ht hr
      have hd : ¬ f.offsetRelZ ≤ -s.onDistance := by
        intro hd
        simp [reachesOn, hz, hd] at hr
      have h := b5 (fun h => hd h.2)
      exact ⟨h.1, h.2.trans ht⟩
    · intro ht
      have h := b5 (fun h => by rw [ht] at h; exact Bool.noConfusion h.1)
      exact ⟨h.1, h.2.trans ht⟩
  · rw [if_neg hz]
    refine ⟨hm, hc, rfl, ?_, ?_, ?_⟩
    · intro _ hr
      simp [reachesOn, hz] at hr
    · intro ht _
      exact ⟨rfl, ht⟩
    · intro ht
      exact ⟨rfl, ht⟩

end UButtonStaticMesh

namespace UButtonStaticMesh

theorem changes_const (b : Bool) (n : List ButtonFrame) :
    changes b (n.map (fun _ => b)) = 0 := by
  induction n with
  | nil => rfl
  | cons f fs ih =>
    show (if b = b then 0 else 1) + changes b (fs.map (fun _ => b)) = 0
    rw [ih, if_pos rfl]

theorem changes_flip_once (b : Bool) (l1 l2 : List ButtonFrame) :
    changes b (l1.map (fun _ => b) ++ l2.map (fun _ => !b)) ≤ 1 := by
  induction l1 with
  | nil =>
    cases l2 with
    | nil => simp [changes]
    | cons f fs =>
      show (if (!b) = b then 0 else 1) + changes (!b) (fs.map (fun _ => !b)) ≤ 1
      rw [changes_const (!b) fs]
      split <;> simp
  | cons f fs ih =>
    show (if b = b then 0 else 1) + changes b (fs.map (fun _ => b) ++ l2.map (fun _ => !b)) ≤ 1
    rw [if_pos rfl, Nat.zero_add]
    exact ih

theorem onTrace_already_toggled (rro : FVector → FVector) (frames : List ButtonFrame)
    (s : UButtonStaticMesh) (hm : s.buttonMode = EButtonMode.Toggle)
    (hc : s.cannotPress = false) (hall : ∀ f ∈ frames, f.bBlockingHit = true)
    (ht : s.alreadyToggled = true) :
    onTrace rro s frames = frames.map (fun _ => s.on_) := by
  induction frames generalizing s with
  | nil => rfl
  | cons f fs ih =>
    obtain ⟨h1, h2, _, _, _, h6⟩ :=
      UpdateButtonPosition_toggle_step rro f s hm hc (hall f (List.mem_cons_self f fs))
    have h := ih (UpdateButtonPosition rro f s) h1 h2
      (fun g hg => hall g (List.mem_cons_of_mem f hg)) (h6 ht).2
    simp only [onTrace, List.map_cons, h, (h6 ht).1]

theorem onTrace_armed (rro : FVector → FVector) (frames : List ButtonFrame)
    (s : UButtonStaticMesh) (hm : s.buttonMode = EButtonMode.Toggle)
    (hc : s.cannotPress = false) (hall : ∀ f ∈ frames, f.bBlockingHit = true)
    (ht : s.alreadyToggled = false) :
    onTrace rro s frames =
      (frames.takeWhile (fun f => !reachesOn s.onDistance f)).map (fun _ => s.on_) ++
      (frames.dropWhile (fun f => !reachesOn s.onDistance f)).map (fun _ => !s.on_) := by
  induction frames generalizing s with
  | nil => rfl
  | cons f fs ih =>
    obtain ⟨h1, h2, h3, h4, h5, _⟩ :=
      UpdateButtonPosition_toggle_step rro f s hm hc (hall f (List.mem_cons_self f fs))
    have hrest : ∀ g ∈ fs, g.bBlockingHit = true := fun g hg => hall g (List.mem_cons_of_mem f hg)
    cases hr : reachesOn s.onDistance f with
    | true =>
      have h := onTrace_already_toggled rro fs (UpdateButtonPosition rro f s) h1 h2 hrest
        (h4 ht hr).2
      simp only [onTrace, h, (h4 ht hr).1, List.takeWhile_cons, List.dropWhile_cons, hr,
        Bool.not_true, Bool.false_eq_true, if_false, List.map_nil, List.nil_append,
        List.map_cons]
    | false =>
      have h := ih (UpdateButtonPosition rro f s) h1 h2 hrest (h5 ht hr).2
      simp only [onTrace, h, (h5 ht hr).1, h3, List.takeWhile_cons, List.dropWhile_cons, hr,
        Bool.not_false, if_true, List.map_cons, List.cons_append]

/-- C14: in Toggle mode with `cannotPress == false`, along a run of consecutive
`UpdateButtonPosition` steps that each register a blocking hit, `on` changes at most once.
If the toggle is armed when the run starts (`alreadyToggled == false`, which a no-hit step
establishes without changing `on`), `on` keeps its value up to the first step that is hit
from above with a press depth of at least `onDistance`, flips on that step and keeps the
flipped value for the rest of the run; if the toggle is not armed, `on` never changes.
`BeginPlay` sets `onDistance` to `travelDistance * onPercentage`. -/
theorem Toggle_changes_once_per_press (rro : FVector → FVector) (s : UButtonStaticMesh)
    (frames : List ButtonFrame) (hm : s.buttonMode = EButtonMode.Toggle)
    (hc : s.cannotPress = false) (hall : ∀ f ∈ frames, f.bBlockingHit = true) :
    changes s.on_ (onTrace rro s frames) ≤ 1 ∧
    (s.alreadyToggled = false →
      onTrace rro s frames =
        (frames.takeWhile (fun f => !reachesOn s.onDistance f)).map (fun _ => s.on_) ++
        (frames.dropWhile (fun f => !reachesOn s.onDistance f)).map (fun _ => !s.on_)) ∧
    (s.alreadyToggled = true → onTrace rro s frames = frames.map (fun _ => s.on_)) ∧
    (∀ f, f.bBlockingHit = false →
      (UpdateButtonPosition rro f s).alreadyToggled = false ∧
      (UpdateButtonPosition rro f s).on_ = s.on_) ∧
    s.BeginPlay.onDistance = s.travelDistance * s.onPercentage := by
  refine ⟨?_, onTrace_armed rro frames s hm hc hall,
    onTrace_already_toggled rro frames s hm hc hall, ?_, rfl⟩
  · cases ht : s.alreadyToggled with
    | false =>
      rw [onTrace_armed rro frames s hm hc hall ht]
      exact changes_flip_once _ _ _
    | true =>
      rw [onTrace_already_toggled rro frames s hm hc hall ht, changes_const]
      exact Nat.zero_le 1
  · intro f hf
    unfold UpdateButtonPosition
    rw [if_neg (by simp [hf])]
    simp [hm]

theorem Toggle_changes_once_per_press_witness :
    onTrace id toggleButton ButtonFrame.onePress = [false, true, true, true, true] := by
  have h := (Toggle_changes_once_per_press id toggleButton ButtonFrame.onePress rfl rfl
    (by
      intro f hf
      simp only [ButtonFrame.onePress, List.mem_cons, List.mem_singleton, List.not_mem_nil,
        or_false] at hf
      rcases hf with h | h | h | h | h <;> rw [h] <;> rfl)).2.1 rfl
  rw [h]
  decide!

end UButtonStaticMesh

/-! ## Theorems: InteractionInterface -/

namespace IInteractionInterface

theorem collectChildren_targets (o : InterfaceObject) (ht : highlightTargets o ≠ []) :
    (((collectChildren [] o).1.filter (fun c => c.isPrimitive)).map (fun c => c.id)
      = highlightTargets o) ∧
    (collectChildren [] o).2 = true ∧ (collectChildren [] o).1.length > 0 := by
  cases o with
  | actor tag comps =>
    refine ⟨rfl, rfl, ?_⟩
    apply List.length_pos_of_ne_nil
    intro hnil
    apply ht
    simp only [highlightTargets]
    simp only [collectChildren] at hnil
    rw [hnil]
    rfl
  | primitiveComponent id =>
    simp [collectChildren, highlightTargets]
  | other => exact absurd rfl ht

theorem Overlapping_keeps_invariant (o : InterfaceObject) (settings : FInterfaceSettings)
    (s : IInteractionInterface) (hand : ObjId)
    (hl : settings.hightlightInteractable = true) (ht : highlightTargets o ≠ [])
    (hinv : HighlightInvariant s) :
    HighlightInvariant (Overlapping_Implementation (some o) settings s hand) ∧
    (Overlapping_Implementation (some o) settings s hand).overlapping = true ∧
    (Overlapping_Implementation (some o) settings s hand).overlappingHands
      = s.overlappingHands ++ [hand] := by
  obtain ⟨h1, h2, h3, h4⟩ := hinv
  obtain ⟨t1, t2, t3⟩ := collectChildren_targets o ht
  unfold Overlapping_Implementation
  dsimp only
  by_cases ho : s.overlapping = true
  · rw [if_neg (by simp [ho])]
    exact ⟨⟨h1, h2, fun _ => ho, h4⟩, ho, rfl⟩
  · have hempty : s.foundComponents = [] := by
      by_contra hne
      exact ho (h1.mpr hne)
    rw [if_pos ⟨by simpa using ho, hl⟩, h4, if_pos ⟨t2, t3⟩, t1, hempty]
    refine ⟨⟨⟨fun _ => ht, fun _ => rfl⟩, ?_, fun _ => rfl, rfl⟩, rfl, rfl⟩
    intro c hc
    rw [List.nil_append] at hc
    simp only [hc, if_true]

theorem EndOverlapping_keeps_invariant (o : Option InterfaceObject)
    (settings : FInterfaceSettings) (s : IInteractionInterface) (hand : ObjId)
    (hinv : HighlightInvariant s) :
    HighlightInvariant (EndOverlapping_Implementation o settings s hand) := by
  obtain ⟨h1, h2, h3, h4⟩ := hinv
  have hsub : s.overlappingHands.filter (fun h => h ≠ hand) ≠ [] → s.overlappingHands ≠ [] := by
    intro hne hnil
    apply hne
    rw [hnil]
    rfl
  unfold EndOverlapping_Implementation
  cases o with
  | none => exact ⟨h1, h2, fun h => h3 (hsub h), h4⟩
  | some obj =>
    dsimp only
    split
    · rename_i hcond
      split
      · exact ⟨⟨fun h => Bool.noConfusion h, fun h => absurd rfl h⟩,
          fun c hc => absurd hc (List.not_mem_nil c),
          fun h => absurd (List.length_eq_zero.mp hcond.1) h, h4⟩
      · exact ⟨h1, h2, fun h => h3 (hsub h), h4⟩
    · exact ⟨h1, h2, fun h => h3 (hsub h), h4⟩

theorem EndOverlapping_other_hand_remains (o : Option InterfaceObject)
    (settings : FInterfaceSettings) (s : IInteractionInterface) (hand other : ObjId)
    (hmem : other ∈ s.overlappingHands) (hne : other ≠ hand) :
    (EndOverlapping_Implementation o settings s hand).overlapping = s.overlapping ∧
    (EndOverlapping_Implementation o settings s hand).foundComponents = s.foundComponents ∧
    (EndOverlapping_Implementation o settings s hand).renderDepth = s.renderDepth ∧
    other ∈ (EndOverlapping_Implementation o settings s hand).overlappingHands := by
  have hin : other ∈ s.overlappingHands.filter (fun h => h ≠ hand) := by
    simp [List.mem_filter, hmem, hne]
  have hlen : ¬ (s.overlappingHands.filter (fun h => h ≠ hand)).length = 0 := by
    intro h0
    rw [List.length_eq_zero.mp h0] at hin
    exact List.not_mem_nil _ hin
  unfold EndOverlapping_Implementation
  cases o with
  | none => exact ⟨rfl, rfl, rfl, hin⟩
  | some obj =>
    dsimp only
    rw [if_neg (fun h => hlen h.1)]
    exact ⟨rfl, rfl, rfl, hin⟩

theorem runOverlaps_keeps_invariant (o : InterfaceObject) (settings : FInterfaceSettings)
    (hl : settings.hightlightInteractable = true) (ht : highlightTargets o ≠ [])
    (calls : List OverlapCall) (s : IInteractionInterface) (hinv : HighlightInvariant s) :
    HighlightInvariant (runOverlaps (some o) settings s calls) := by
  induction calls generalizing s with
  | nil => exact hinv
  | cons c cs ih =>
    apply ih
    cases c with
    | Overlapping hand => exact (Overlapping_keeps_invariant o settings s hand hl ht hinv).1
    | EndOverlapping hand => exact EndOverlapping_keeps_invariant (some o) settings s hand hinv

theorem runOverlaps_append (o : Option InterfaceObject) (settings : FInterfaceSettings)
    (s : IInteractionInterface) (pre post : List OverlapCall) :
    runOverlaps o settings s (pre ++ post)
      = runOverlaps o settings (runOverlaps o settings s pre) post := by
  simp [runOverlaps, List.foldl_append]

theorem fresh_invariant (renderDepth : ObjId → RenderDepth) :
    HighlightInvariant (fresh renderDepth) :=
  ⟨⟨fun h => Bool.noConfusion h, fun h => absurd rfl h⟩,
    fun c hc => absurd hc (List.not_mem_nil c), fun h => absurd rfl h, rfl⟩

end IInteractionInterface

namespace IInteractionInterface

theorem Overlapping_never_resets (o : Option InterfaceObject) (settings : FInterfaceSettings)
    (s : IInteractionInterface) (hand : ObjId) :
    (s.foundComponents ≠ [] →
      (Overlapping_Implementation o settings s hand).foundComponents ≠ []) ∧
    (s.overlapping = true → (Overlapping_Implementation o settings s hand).overlapping = true) := by
  unfold Overlapping_Implementation
  cases o with
  | none => exact ⟨id, id⟩
  | some obj =>
    dsimp only
    split
    · split
      · refine ⟨fun hne h => hne ?_, fun _ => rfl⟩
        exact (List.append_eq_nil.mp h).1
      · exact ⟨id, id⟩
    · exact ⟨id, id⟩

theorem EndOverlapping_reset_leaves_no_hand (o : Option InterfaceObject)
    (settings : FInterfaceSettings) (s : IInteractionInterface) (hand : ObjId)
    (hreset : (s.foundComponents ≠ [] ∧
        (EndOverlapping_Implementation o settings s hand).foundComponents = []) ∨
      (s.overlapping = true ∧
        (EndOverlapping_Implementation o settings s hand).overlapping = false)) :
    (EndOverlapping_Implementation o settings s hand).overlappingHands = [] := by
  unfold EndOverlapping_Implementation at hreset ⊢
  cases o with
  | none =>
    rcases hreset with ⟨h1, h2⟩ | ⟨h1, h2⟩
    · exact absurd h2 h1
    · rw [h1] at h2
      cases h2
  | some obj =>
    dsimp only at hreset ⊢
    split
    · rename_i hcond
      have hnil := List.length_eq_zero.mp hcond.1
      split <;> exact hnil
    · rename_i hcond
      rw [if_neg hcond] at hreset
      rcases hreset with ⟨h1, h2⟩ | ⟨h1, h2⟩
      · exact absurd h2 h1
      · rw [h1] at h2
        cases h2

/-- C15: for an interactable with `hightlightInteractable` enabled and at least one
primitive component to highlight, along every sequence of `Overlapping` and
`EndOverlapping` calls: a call resets the highlight (empties a non-empty `foundComponents`
or turns `overlapping` from true to false) only if it is an `EndOverlapping` call after
which `overlappingHands` is empty; as long as `overlappingHands` is not empty the found
components are highlighted; and once two distinct hands have begun overlapping and one of
them has ended, the components are still highlighted. -/
theorem highlight_lasts_while_a_hand_overlaps (o : InterfaceObject)
    (settings : FInterfaceSettings) (renderDepth : ObjId → RenderDepth)
    (hl : settings.hightlightInteractable = true) (ht : highlightTargets o ≠ []) :
    (∀ (pre : List OverlapCall) (c : OverlapCall),
      (((runOverlaps (some o) settings (fresh renderDepth) pre).foundComponents ≠ [] ∧
        (runOverlaps (some o) settings (fresh renderDepth) (pre ++ [c])).foundComponents = []) ∨
       ((runOverlaps (some o) settings (fresh renderDepth) pre).overlapping = true ∧
        (runOverlaps (some o) settings (fresh renderDepth) (pre ++ [c])).overlapping = false)) →
      ∃ hand, c = OverlapCall.EndOverlapping hand ∧
        (runOverlaps (some o) settings (fresh renderDepth) (pre ++ [c])).overlappingHands = []) ∧
    (∀ calls : List OverlapCall,
      (runOverlaps (some o) settings (fresh renderDepth) calls).overlappingHands ≠ [] →
      Highlighted (runOverlaps (some o) settings (fresh renderDepth) calls)) ∧
    (∀ (pre : List OverlapCall) (h1 h2 : ObjId), h1 ≠ h2 →
      Highlighted (runOverlaps (some o) settings (fresh renderDepth)
        (pre ++ [OverlapCall.Overlapping h1, OverlapCall.Overlapping h2,
          OverlapCall.EndOverlapping h1])) ∧
      Highlighted (runOverlaps (some o) settings (fresh renderDepth)
        (pre ++ [OverlapCall.Overlapping h1, OverlapCall.Overlapping h2,
          OverlapCall.EndOverlapping h2]))) := by
  have hB : ∀ calls : List OverlapCall,
      (runOverlaps (some o) settings (fresh renderDepth) calls).overlappingHands ≠ [] →
      Highlighted (runOverlaps (some o) settings (fresh renderDepth) calls) := by
    intro calls hne
    obtain ⟨i1, i2, i3, _⟩ :=
      runOverlaps_keeps_invariant o settings hl ht calls _ (fresh_invariant renderDepth)
    exact ⟨i3 hne, i1.mp (i3 hne), i2⟩
  refine ⟨?_, hB, ?_⟩
  · intro pre c hreset
    rw [runOverlaps_append] at hreset ⊢
    cases c with
    | Overlapping hand =>
      exfalso
      obtain ⟨n1, n2⟩ := Overlapping_never_resets (some o) settings
        (runOverlaps (some o) settings (fresh renderDepth) pre) hand
      rcases hreset with ⟨a, b⟩ | ⟨a, b⟩
      · exact n1 a b
      · have h := n2 a
        change (Overlapping_Implementation (some o) settings
          (runOverlaps (some o) settings (fresh renderDepth) pre) hand).overlapping = false at b
        rw [h] at b
        cases b
    | EndOverlapping hand =>
      exact ⟨hand, rfl, EndOverlapping_reset_leaves_no_hand (some o) settings _ hand hreset⟩
  · intro pre h1 h2 hne
    have hmem : ∀ ender other : ObjId, other ≠ ender → (other = h1 ∨ other = h2) →
        (runOverlaps (some o) settings (fresh renderDepth)
          (pre ++ [OverlapCall.Overlapping h1, OverlapCall.Overlapping h2,
            OverlapCall.EndOverlapping ender])).overlappingHands ≠ [] := by
      intro ender other hoe hoth
      rw [runOverlaps_append]
      have hinv := runOverlaps_keeps_invariant o settings hl ht pre _
        (fresh_invariant renderDepth)
      obtain ⟨inv1, _, hands1⟩ := Overlapping_keeps_invariant o settings
        (runOverlaps (some o) settings (fresh renderDepth) pre) h1 hl ht hinv
      obtain ⟨_, _, hands2⟩ := Overlapping_keeps_invariant o settings
        (Overlapping_Implementation (some o) settings
          (runOverlaps (some o) settings (fresh renderDepth) pre) h1) h2 hl ht inv1
      have hin : other ∈ (Overlapping_Implementation (some o) settings
          (Overlapping_Implementation (some o) settings
            (runOverlaps (some o) settings (fresh renderDepth) pre) h1) h2).overlappingHands := by
        rw [hands2, hands1]
        rcases hoth with h | h <;> simp [h]
      have hrem := (EndOverlapping_other_hand_remains (some o) settings _ ender other hin hoe).2.2.2
      exact List.ne_nil_of_mem hrem
    exact ⟨hB _ (hmem h1 h2 (Ne.symm hne) (Or.inr rfl)), hB _ (hmem h2 h1 hne (Or.inl rfl))⟩

end IInteractionInterface

namespace IInteractionInterface

theorem highlight_lasts_while_a_hand_overlaps_witness :
    Highlighted (runOverlaps (some (InterfaceObject.primitiveComponent 3))
      FInterfaceSettings.default (fresh (fun _ => ⟨false, 0⟩))
      [OverlapCall.Overlapping 1, OverlapCall.Overlapping 2, OverlapCall.EndOverlapping 1]) :=
  ((highlight_lasts_while_a_hand_overlaps (InterfaceObject.primitiveComponent 3)
    FInterfaceSettings.default (fun _ => ⟨false, 0⟩) rfl (by simp [highlightTargets])).2.2
    [] 1 2 (by decide)).1

end IInteractionInterface

/-! ## Theorems: locking of RotatableStaticMesh -/

namespace URotatableLocking

theorem Lock_result (s : URotatableStaticMesh) (a : ℚ) (hl : s.lockable = true) :
    (s.Lock a).locked = true ∧ (s.Lock a).cumulativeAngle = a := by
  unfold URotatableStaticMesh.Lock
  rw [if_pos hl]
  dsimp only
  split_ifs <;> exact ⟨rfl, rfl⟩

theorem lockScan_foldl (s : URotatableLocking) (l : List ℚ) (acc : ℚ × Bool) :
    (l.foldl s.lockScan acc).1 ≤ acc.1 ∧
    (l.foldl s.lockScan acc = acc ∨
      ((l.foldl s.lockScan acc).1 ∈ l ∧ s.hasPassedLock (l.foldl s.lockScan acc).1 = true ∧
        (l.foldl s.lockScan acc).2 = true ∧ (l.foldl s.lockScan acc).1 < acc.1)) ∧
    (∀ q ∈ l, s.hasPassedLock q = true → (l.foldl s.lockScan acc).1 ≤ q) := by
  induction l generalizing acc with
  | nil => exact ⟨le_refl _, Or.inl rfl, fun q hq => absurd hq (List.not_mem_nil q)⟩
  | cons p l ih =>
    obtain ⟨i1, i2, i3⟩ := ih (s.lockScan acc p)
    rw [List.foldl_cons]
    by_cases hp : s.hasPassedLock p = true ∧ p < acc.1
    · have hacc : s.lockScan acc p = (p, true) := by
        unfold lockScan
        rw [if_pos hp]
      rw [hacc] at i1 i2 i3 ⊢
      refine ⟨le_trans i1 (le_of_lt hp.2), Or.inr ?_, ?_⟩
      · rcases i2 with h | ⟨h1, h2, h3, h4⟩
        · rw [h]
          exact ⟨List.mem_cons_self p l, hp.1, rfl, hp.2⟩
        · exact ⟨List.mem_cons_of_mem p h1, h2, h3, lt_trans h4 hp.2⟩
      · intro q hq hpass
        rcases List.mem_cons.mp hq with h | h
        · rw [h]
          exact i1
        · exact i3 q h hpass
    · have hacc : s.lockScan acc p = acc := by
        unfold lockScan
        rw [if_neg hp]
      rw [hacc] at i1 i2 i3 ⊢
      refine ⟨i1, ?_, ?_⟩
      · rcases i2 with h | ⟨h1, h2, h3, h4⟩
        · exact Or.inl h
        · exact Or.inr ⟨List.mem_cons_of_mem p h1, h2, h3, h4⟩
      · intro q hq hpass
        rcases List.mem_cons.mp hq with h | h
        · rw [h] at hpass ⊢
          have hge : acc.1 ≤ p := not_lt.mp (fun hlt => hp ⟨hpass, hlt⟩)
          exact le_trans i1 hge
        · exact i3 q h hpass

end URotatableLocking

namespace URotatableLocking

/-- C11 (what the code does): for a lockable rotatable that can lock (`cannotLock == false`,
no grabbing hand or `lockWhileGrabbed`), with locking points below `BIG_NUMBER`,
`UpdateRotatableLock` locks exactly when some locking point lies between
`lastCheckedRotation` and `cumulativeAngle` (bounds included): it then locks at the
smallest such point.  When no locking point lies in between it does not lock and leaves
`cumulativeAngle` alone, however close a locking point is; `lockingDistance` is not read. -/
theorem UpdateRotatableLock_locks_on_passed_point (s : URotatableLocking)
    (hlockable : s.lockable = true) (hcan : s.cannotLock = false)
    (hhand : s.handRef = none ∨ s.lockWhileGrabbed = true)
    (hbig : ∀ p ∈ s.lockingPoints, p < BIG_NUMBER) :
    ((∃ p ∈ s.lockingPoints, s.hasPassedLock p = true) →
      s.UpdateRotatableLock.locked = true ∧
      s.UpdateRotatableLock.cumulativeAngle ∈ s.lockingPoints ∧
      s.hasPassedLock s.UpdateRotatableLock.cumulativeAngle = true ∧
      ∀ q ∈ s.lockingPoints, s.hasPassedLock q = true →
        s.UpdateRotatableLock.cumulativeAngle ≤ q) ∧
    ((∀ p ∈ s.lockingPoints, s.hasPassedLock p = false) →
      s.UpdateRotatableLock.locked = s.locked ∧
      s.UpdateRotatableLock.cumulativeAngle = s.cumulativeAngle) := by
  have h1 : ¬ (s.handRef.isSome = true ∧ (!s.lockWhileGrabbed) = true) := by
    rcases hhand with h | h <;> simp [h]
  have h2 : ¬ (s.cannotLock = true) := by simp [hcan]
  obtain ⟨_, f2, f3⟩ := lockScan_foldl s s.lockingPoints (BIG_NUMBER, false)
  unfold UpdateRotatableLock
  rw [if_neg h1, if_neg h2]
  dsimp only
  constructor
  · rintro ⟨p, hp, hpass⟩
    have hlt : (s.lockingPoints.foldl s.lockScan (BIG_NUMBER, false)).1 < BIG_NUMBER :=
      lt_of_le_of_lt (f3 p hp hpass) (hbig p hp)
    rcases f2 with h | ⟨g1, g2, g3, _⟩
    · rw [h] at hlt
      exact absurd hlt (lt_irrefl _)
    · rw [if_pos g3]
      obtain ⟨l1, l2⟩ := Lock_result s.toURotatableStaticMesh
        (s.lockingPoints.foldl s.lockScan (BIG_NUMBER, false)).1 hlockable
      refine ⟨l1, ?_, ?_, ?_⟩
      · change (s.toURotatableStaticMesh.Lock
          (s.lockingPoints.foldl s.lockScan (BIG_NUMBER, false)).1).cumulativeAngle
            ∈ s.lockingPoints
        rw [l2]
        exact g1
      · change s.hasPassedLock (s.toURotatableStaticMesh.Lock
          (s.lockingPoints.foldl s.lockScan (BIG_NUMBER, false)).1).cumulativeAngle = true
        rw [l2]
        exact g2
      · intro q hq hqpass
        change (s.toURotatableStaticMesh.Lock
          (s.lockingPoints.foldl s.lockScan (BIG_NUMBER, false)).1).cumulativeAngle ≤ q
        rw [l2]
        exact f3 q hq hqpass
  · intro hnone
    rcases f2 with h | ⟨g1, g2, _, _⟩
    · rw [h]
      exact ⟨rfl, rfl⟩
    · rw [hnone _ g1] at g2
      cases g2

theorem UpdateRotatableLock_locks_on_passed_point_witness :
    |nearLockingPoint.cumulativeAngle - 90| ≤ nearLockingPoint.lockingDistance ∧
    nearLockingPoint.UpdateRotatableLock.locked = false ∧
    nearLockingPoint.UpdateRotatableLock.cumulativeAngle = 89 :=
  ⟨by decide!,
    (UpdateRotatableLock_locks_on_passed_point nearLockingPoint rfl rfl (Or.inl rfl)
      (by decide!)).2 (by decide!)⟩

end URotatableLocking

end VRProject
